import Mathlib

set_option maxRecDepth 16384

/-!
Verification of the boot-sector / BIOS Parameter Block layer of a FAT
filesystem implementation (`src/boot_sector.rs`).

The Rust code is shallowly embedded: machine integers become `Nat` with an
explicit `% 2 ^ w` wherever overflow can occur (release-mode wrapping
semantics); byte streams become `List Nat`; fallible operations return
`Option` (I/O) or `Except String` (validation / formatting, mirroring
`io::Result` with the error message strings of the source).  Diagnostic
`warn!` lines of the source have no effect on control flow and are kept as
comments only.  Rust division by zero panics; the Lean model totalizes it as
`0` (the convention is noted at each spot where it could matter).
-/

/-- `KB` constant of the source (`1024`). -/
def KB : Nat := 1024

/-- `MB` constant of the source (`KB * 1024`). -/
def MB : Nat := KB * 1024

/-- `GB` constant of the source (`MB * 1024`). -/
def GB : Nat := MB * 1024

/-- Modelled from the spec: the byte-count→directory-entry-size constant
`DIR_ENTRY_SIZE` lives in `dir_entry.rs`, outside the provided sources.  A
FAT directory entry is universally 32 bytes. -/
def DIR_ENTRY_SIZE : Nat := 32

/-- Modelled from the spec: the reserved-FAT-entry-count constant
`RESERVED_FAT_ENTRIES` lives in `table.rs`, outside the provided sources.
FAT entries 0 and 1 are reserved, so the margin is 2. -/
def RESERVED_FAT_ENTRIES : Nat := 2

/-- The three FAT variants (declared in `fs.rs`, used throughout the
boot-sector code). -/
inductive FatType where
  | Fat12
  | Fat16
  | Fat32
deriving DecidableEq

/-- Modelled from the spec: the cluster-count→FatType classifier
`FatType::from_clusters` lives in `fs.rs`, outside the provided sources.
The spec only says the FAT variant is always re-derived from the cluster
count; the thresholds used here are the standard FAT limits (fewer than
4085 clusters is FAT12, fewer than 65525 is FAT16, otherwise FAT32). -/
def FatType.from_clusters (total_clusters : Nat) : FatType :=
  if total_clusters < 4085 then FatType.Fat12
  else if total_clusters < 65525 then FatType.Fat16
  else FatType.Fat32

/-- Modelled from the spec: the FatType→bits-per-FAT-entry lookup
`FatType::bits_per_fat_entry` lives in `fs.rs`, outside the provided
sources.  A FAT12/16/32 table entry is 12/16/32 bits wide. -/
def FatType.bits_per_fat_entry : FatType → Nat
  | FatType.Fat12 => 12
  | FatType.Fat16 => 16
  | FatType.Fat32 => 32

/-- Fuel-driven doubling loop behind `u64::next_power_of_two`: starting from
`power`, keep doubling while `power < n`. -/
def npotGo (n : Nat) : Nat → Nat → Nat
  | 0, power => power
  | fuel + 1, power => if power < n then npotGo n fuel (power * 2) else power

/-- `u64::next_power_of_two` with release-mode (wrapping) overflow
semantics: the smallest power of two that is `≥ n`, reduced modulo `2 ^ 64`
(so inputs above `2 ^ 63` yield `0`, as the wrapping Rust intrinsic does). -/
def u64NextPowerOfTwo (n : Nat) : Nat := npotGo n 64 1 % 2 ^ 64

/-- Fuel-driven popcount over the binary digits of `n`. -/
def popCountAux : Nat → Nat → Nat
  | 0, _ => 0
  | fuel + 1, n => n % 2 + popCountAux fuel (n / 2)

/-- `u16::count_ones` (for values below `2 ^ 16`). -/
def countOnes16 (n : Nat) : Nat := popCountAux 16 n

/-- `u8::count_ones` (for values below `2 ^ 8`). -/
def countOnes8 (n : Nat) : Nat := popCountAux 8 n

/-! ### Little-endian byte codec helpers

`write_u8/u16/u32` produce the little-endian bytes of a value;
`read_u8/u16/u32` consume them from the front of a byte list, returning
`none` exactly when the reader hits end-of-stream (the `io::Error` case of
the source). -/

/-- `write_u8`: one byte, the value reduced to its low 8 bits. -/
def w8 (v : Nat) : List Nat := [v % 256]

/-- `write_u16::<LittleEndian>`: two bytes, low first. -/
def w16 (v : Nat) : List Nat := [v % 256, v / 256 % 256]

/-- `write_u32::<LittleEndian>`: four bytes, low first. -/
def w32 (v : Nat) : List Nat :=
  [v % 256, v / 256 % 256, v / 2 ^ 16 % 256, v / 2 ^ 24 % 256]

/-- `read_u8`. -/
def r8 : List Nat → Option (Nat × List Nat)
  | [] => none
  | b :: s => some (b, s)

/-- `read_u16::<LittleEndian>`. -/
def r16 : List Nat → Option (Nat × List Nat)
  | b0 :: b1 :: s => some (b0 + 256 * b1, s)
  | _ => none

/-- `read_u32::<LittleEndian>`. -/
def r32 : List Nat → Option (Nat × List Nat)
  | b0 :: b1 :: b2 :: b3 :: s =>
    some (b0 + 256 * b1 + 2 ^ 16 * b2 + 2 ^ 24 * b3, s)
  | _ => none

/-- `read_exact` into an `n`-byte buffer. -/
def readExact (n : Nat) (s : List Nat) : Option (List Nat × List Nat) :=
  if n ≤ s.length then some (s.take n, s.drop n) else none

/-! ### BiosParameterBlock -/

/-- The `BiosParameterBlock` record of the source, field for field.  Machine
integers are `Nat` (the well-formedness predicate `wfBpb` below records the
width bounds), byte arrays are `List Nat`. -/
structure BiosParameterBlock where
  bytes_per_sector : Nat := 0
  sectors_per_cluster : Nat := 0
  reserved_sectors : Nat := 0
  fats : Nat := 0
  root_entries : Nat := 0
  total_sectors_16 : Nat := 0
  media : Nat := 0
  sectors_per_fat_16 : Nat := 0
  sectors_per_track : Nat := 0
  heads : Nat := 0
  hidden_sectors : Nat := 0
  total_sectors_32 : Nat := 0
  sectors_per_fat_32 : Nat := 0
  extended_flags : Nat := 0
  fs_version : Nat := 0
  root_dir_first_cluster : Nat := 0
  fs_info_sector : Nat := 0
  backup_boot_sector : Nat := 0
  reserved_0 : List Nat := List.replicate 12 0
  drive_num : Nat := 0
  reserved_1 : Nat := 0
  ext_sig : Nat := 0
  volume_id : Nat := 0
  volume_label : List Nat := List.replicate 11 0
  fs_type_label : List Nat := List.replicate 8 0
deriving DecidableEq

/-- `BiosParameterBlock::is_fat32`: the FAT32 layout is detected by
`sectors_per_fat_16 == 0`. -/
def BiosParameterBlock.is_fat32 (bpb : BiosParameterBlock) : Bool :=
  bpb.sectors_per_fat_16 == 0

/-- `BiosParameterBlock::serialize`, as the little-endian byte sequence it
writes. -/
def BiosParameterBlock.serialize (bpb : BiosParameterBlock) : List Nat :=
  w16 bpb.bytes_per_sector ++
  w8 bpb.sectors_per_cluster ++
  w16 bpb.reserved_sectors ++
  w8 bpb.fats ++
  w16 bpb.root_entries ++
  w16 bpb.total_sectors_16 ++
  w8 bpb.media ++
  w16 bpb.sectors_per_fat_16 ++
  w16 bpb.sectors_per_track ++
  w16 bpb.heads ++
  w32 bpb.hidden_sectors ++
  w32 bpb.total_sectors_32 ++
  (if bpb.is_fat32 then
    w32 bpb.sectors_per_fat_32 ++
    w16 bpb.extended_flags ++
    w16 bpb.fs_version ++
    w32 bpb.root_dir_first_cluster ++
    w16 bpb.fs_info_sector ++
    w16 bpb.backup_boot_sector ++
    bpb.reserved_0 ++
    w8 bpb.drive_num ++
    w8 bpb.reserved_1 ++
    w8 bpb.ext_sig ++
    w32 bpb.volume_id ++
    bpb.volume_label ++
    bpb.fs_type_label
  else
    w8 bpb.drive_num ++
    w8 bpb.reserved_1 ++
    w8 bpb.ext_sig ++
    w32 bpb.volume_id ++
    bpb.volume_label ++
    bpb.fs_type_label)

/-- The FAT32 extended-tail reads of `BiosParameterBlock::deserialize`,
filling the extended BPB fields of `bpb`. -/
def BiosParameterBlock.readExtTail (bpb : BiosParameterBlock)
    (s : List Nat) : Option (BiosParameterBlock × List Nat) :=
  match r32 s with
  | none => none
  | some (spf32, s) =>
  match r16 s with
  | none => none
  | some (ef, s) =>
  match r16 s with
  | none => none
  | some (fsv, s) =>
  match r32 s with
  | none => none
  | some (rdfc, s) =>
  match r16 s with
  | none => none
  | some (fis, s) =>
  match r16 s with
  | none => none
  | some (bbs, s) =>
  match readExact 12 s with
  | none => none
  | some (res0, s) =>
  match r8 s with
  | none => none
  | some (dn, s) =>
  match r8 s with
  | none => none
  | some (r1, s) =>
  match r8 s with
  | none => none
  | some (es, s) =>
  match r32 s with
  | none => none
  | some (vid, s) =>
  match readExact 11 s with
  | none => none
  | some (vl, s) =>
  match readExact 8 s with
  | none => none
  | some (ftl, s) =>
  some ({ bpb with sectors_per_fat_32 := spf32, extended_flags := ef,
                   fs_version := fsv, root_dir_first_cluster := rdfc,
                   fs_info_sector := fis, backup_boot_sector := bbs,
                   reserved_0 := res0, drive_num := dn, reserved_1 := r1,
                   ext_sig := es, volume_id := vid, volume_label := vl,
                   fs_type_label := ftl }, s)

/-- The short (non-FAT32) tail reads of `BiosParameterBlock::deserialize`. -/
def BiosParameterBlock.readShortTail (bpb : BiosParameterBlock)
    (s : List Nat) : Option (BiosParameterBlock × List Nat) :=
  match r8 s with
  | none => none
  | some (dn, s) =>
  match r8 s with
  | none => none
  | some (r1, s) =>
  match r8 s with
  | none => none
  | some (es, s) =>
  match r32 s with
  | none => none
  | some (vid, s) =>
  match readExact 11 s with
  | none => none
  | some (vl, s) =>
  match readExact 8 s with
  | none => none
  | some (ftl, s) =>
  some ({ bpb with drive_num := dn, reserved_1 := r1, ext_sig := es,
                   volume_id := vid, volume_label := vl,
                   fs_type_label := ftl }, s)

/-- `BiosParameterBlock::deserialize`.  Reads the 13-field common header,
branches on `is_fat32` (i.e. on the just-read `sectors_per_fat_16`), reads
the matching tail, and finally zeroes `volume_id` / `volume_label` /
`fs_type_label` when the extended boot signature is not `0x29`.  Fields the
short form does not read keep their `Default` value (zero). -/
def BiosParameterBlock.deserialize (s : List Nat) :
    Option (BiosParameterBlock × List Nat) :=
  match r16 s with
  | none => none
  | some (bps, s) =>
  match r8 s with
  | none => none
  | some (spc, s) =>
  match r16 s with
  | none => none
  | some (rsv, s) =>
  match r8 s with
  | none => none
  | some (fats, s) =>
  match r16 s with
  | none => none
  | some (re, s) =>
  match r16 s with
  | none => none
  | some (ts16, s) =>
  match r8 s with
  | none => none
  | some (media, s) =>
  match r16 s with
  | none => none
  | some (spf16, s) =>
  match r16 s with
  | none => none
  | some (spt, s) =>
  match r16 s with
  | none => none
  | some (heads, s) =>
  match r32 s with
  | none => none
  | some (hidden, s) =>
  match r32 s with
  | none => none
  | some (ts32, s) =>
  let bpb0 : BiosParameterBlock :=
    { bytes_per_sector := bps, sectors_per_cluster := spc,
      reserved_sectors := rsv, fats := fats, root_entries := re,
      total_sectors_16 := ts16, media := media, sectors_per_fat_16 := spf16,
      sectors_per_track := spt, heads := heads, hidden_sectors := hidden,
      total_sectors_32 := ts32 }
  match (if bpb0.is_fat32 then bpb0.readExtTail s else bpb0.readShortTail s) with
  | none => none
  | some (bpb, s) =>
  -- when the extended boot signature is anything other than 0x29, the
  -- fields after it are invalid and are cleaned
  if bpb.ext_sig ≠ 0x29 then
    some ({ bpb with volume_id := 0,
                     volume_label := List.replicate 11 0,
                     fs_type_label := List.replicate 8 0 }, s)
  else
    some (bpb, s)

/-- `BiosParameterBlock::sectors_per_fat`. -/
def BiosParameterBlock.sectors_per_fat (bpb : BiosParameterBlock) : Nat :=
  if bpb.is_fat32 then bpb.sectors_per_fat_32 else bpb.sectors_per_fat_16

/-- `BiosParameterBlock::total_sectors`. -/
def BiosParameterBlock.total_sectors (bpb : BiosParameterBlock) : Nat :=
  if bpb.total_sectors_16 = 0 then bpb.total_sectors_32 else bpb.total_sectors_16

/-- `BiosParameterBlock::root_dir_sectors` — ceiling division of the root
directory byte size by the sector size (Rust division by zero would panic;
`bytes_per_sector = 0` never passes validation). -/
def BiosParameterBlock.root_dir_sectors (bpb : BiosParameterBlock) : Nat :=
  (bpb.root_entries * DIR_ENTRY_SIZE + bpb.bytes_per_sector - 1) /
    bpb.bytes_per_sector

/-- `BiosParameterBlock::sectors_per_all_fats` (u32 multiplication,
wrapping). -/
def BiosParameterBlock.sectors_per_all_fats (bpb : BiosParameterBlock) : Nat :=
  bpb.fats * bpb.sectors_per_fat % 2 ^ 32

/-- `BiosParameterBlock::first_data_sector` (u32 additions, wrapping). -/
def BiosParameterBlock.first_data_sector (bpb : BiosParameterBlock) : Nat :=
  (bpb.reserved_sectors + bpb.sectors_per_all_fats + bpb.root_dir_sectors) %
    2 ^ 32

/-- `BiosParameterBlock::total_clusters` (u32 subtraction, wrapping, then
truncating division by `sectors_per_cluster`). -/
def BiosParameterBlock.total_clusters (bpb : BiosParameterBlock) : Nat :=
  (bpb.total_sectors + 2 ^ 32 - bpb.first_data_sector) % 2 ^ 32 /
    bpb.sectors_per_cluster

/-- `BiosParameterBlock::cluster_size` (`sectors_per_cluster ×
bytes_per_sector` as u32; no wrap is possible for u8 × u16 operands). -/
def BiosParameterBlock.cluster_size (bpb : BiosParameterBlock) : Nat :=
  bpb.sectors_per_cluster * bpb.bytes_per_sector

/-- Reinterpret a u64 bit pattern as an i64 (two's complement). -/
def i64OfU64 (n : Nat) : Int :=
  if n < 2 ^ 63 then (n : Int) else (n : Int) - 2 ^ 64

/-- Wrap an integer into the i64 range (two's complement overflow). -/
def wrapI64 (x : Int) : Int := (x + 2 ^ 63) % 2 ^ 64 - 2 ^ 63

/-- `as u32` on an i64 value: the low 32 bits of the two's complement
representation. -/
def u32OfI64 (x : Int) : Nat := (x % 2 ^ 32).toNat

/-- `BiosParameterBlock::clusters_from_bytes`: the byte count and the
cluster size are moved to i64, the ceiling-division numerator is formed with
wrapping i64 arithmetic, divided with Rust's truncating i64 division, and
the result is cast back to u32. -/
def BiosParameterBlock.clusters_from_bytes (bpb : BiosParameterBlock)
    (bytes : Nat) : Nat :=
  u32OfI64 ((wrapI64 (i64OfU64 bytes + (bpb.cluster_size : Int) - 1)).tdiv
    (bpb.cluster_size : Int))

/-- `BiosParameterBlock::validate`.  Each failing hard check aborts with the
error string of the source; `warn!` diagnostics do not affect control flow
and appear here only as comments. -/
def BiosParameterBlock.validate (bpb : BiosParameterBlock) :
    Except String Unit :=
  if countOnes16 bpb.bytes_per_sector ≠ 1 then
    Except.error "invalid bytes_per_sector value in BPB (not power of two)"
  else if bpb.bytes_per_sector < 512 then
    Except.error "invalid bytes_per_sector value in BPB (value < 512)"
  else if bpb.bytes_per_sector > 4096 then
    Except.error "invalid bytes_per_sector value in BPB (value > 4096)"
  else if countOnes8 bpb.sectors_per_cluster ≠ 1 then
    Except.error "invalid sectors_per_cluster value in BPB (not power of two)"
  else if bpb.sectors_per_cluster < 1 then
    Except.error "invalid sectors_per_cluster value in BPB (value < 1)"
  else if bpb.sectors_per_cluster > 128 then
    Except.error "invalid sectors_per_cluster value in BPB (value > 128)"
  -- warn-only: bytes_per_cluster above 32 KiB is a compatibility warning
  else if bpb.reserved_sectors < 1 then
    Except.error "invalid reserved_sectors value in BPB"
  -- warn-only: non-FAT32 with reserved_sectors different from 1
  else if bpb.fats = 0 then
    Except.error "invalid fats value in BPB"
  -- warn-only: more than 2 FATs
  else if bpb.is_fat32 && bpb.root_entries != 0 then
    Except.error "Invalid root_entries value in BPB (should be zero for FAT32)"
  else if bpb.is_fat32 && bpb.total_sectors_16 != 0 then
    Except.error "Invalid total_sectors_16 value in BPB (should be zero for FAT32)"
  else if (bpb.total_sectors_16 == 0) == (bpb.total_sectors_32 == 0) then
    Except.error "Invalid BPB (total_sectors_16 or total_sectors_32 should be non-zero)"
  else if bpb.is_fat32 && bpb.sectors_per_fat_32 == 0 then
    Except.error "Invalid sectors_per_fat_32 value in BPB (should be non-zero for FAT32)"
  else if bpb.fs_version ≠ 0 then
    Except.error "Unknown FS version"
  else if bpb.total_sectors ≤ bpb.first_data_sector then
    Except.error "Invalid BPB (total_sectors field value is too small)"
  else if bpb.is_fat32 != (FatType.from_clusters bpb.total_clusters == FatType.Fat32) then
    Except.error "Invalid BPB (result of FAT32 determination from total number of clusters and sectors_per_fat_16 field differs)"
  -- warn-only: FAT too small compared to the total number of clusters
  -- (the u32 expression sectors_per_fat * bytes_per_sector * 8 /
  -- bits_per_fat_entry - RESERVED_FAT_ENTRIES is evaluated here by the
  -- source; claim C10 is about that expression)
  else
    Except.ok ()

/-! ### BootSector -/

/-- The `BootSector` record of the source: a 3-byte jump, an 8-byte OEM
name, the embedded BPB, a 448-byte boot-code buffer and the 2-byte
signature. -/
structure BootSector where
  bootjmp : List Nat := List.replicate 3 0
  oem_name : List Nat := List.replicate 8 0
  bpb : BiosParameterBlock := {}
  boot_code : List Nat := List.replicate 448 0
  boot_sig : List Nat := List.replicate 2 0
deriving DecidableEq

/-- `BootSector::deserialize`: fixed prefix, BPB, then a 420- or 448-byte
boot-code region (read into the front of the zero-initialized 448-byte
buffer) and the signature. -/
def BootSector.deserialize (s : List Nat) : Option (BootSector × List Nat) :=
  match readExact 3 s with
  | none => none
  | some (bootjmp, s) =>
  match readExact 8 s with
  | none => none
  | some (oem_name, s) =>
  match BiosParameterBlock.deserialize s with
  | none => none
  | some (bpb, s) =>
  match (if bpb.is_fat32 then readExact 420 s else readExact 448 s) with
  | none => none
  | some (code, s) =>
  match readExact 2 s with
  | none => none
  | some (boot_sig, s) =>
  let boot_code := if bpb.is_fat32 then code ++ List.replicate 28 0 else code
  some ({ bootjmp := bootjmp, oem_name := oem_name, bpb := bpb,
          boot_code := boot_code, boot_sig := boot_sig }, s)

/-- `BootSector::serialize`: the mirror-image writes (420 or 448 boot-code
bytes depending on the BPB variant). -/
def BootSector.serialize (boot : BootSector) : List Nat :=
  boot.bootjmp ++
  boot.oem_name ++
  boot.bpb.serialize ++
  (if boot.bpb.is_fat32 then boot.boot_code.take 420 else boot.boot_code.take 448) ++
  boot.boot_sig

/-! ### Formatting engine -/

/-- Modelled from the spec: the `FormatVolumeOptions` record lives in
`fs.rs`, outside the provided sources.  Its fields are exactly those the
formatting engine consumes: mandatory `bytes_per_sector` (u16) and
`total_sectors` (u32), and the optional overrides with the defaults of
spec §4.5. -/
structure FormatVolumeOptions where
  bytes_per_sector : Nat
  total_sectors : Nat
  fat_type : Option FatType := none
  bytes_per_cluster : Option Nat := none
  root_entries : Option Nat := none
  media : Option Nat := none
  sectors_per_track : Option Nat := none
  heads : Option Nat := none
  drive_num : Option Nat := none
  volume_id : Option Nat := none
  volume_label : Option (List Nat) := none

/-- `determine_fat_type`: fixed thresholds on the 64-bit byte count. -/
def determine_fat_type (total_bytes : Nat) : FatType :=
  if total_bytes < 4 * MB then FatType.Fat12
  else if total_bytes < 512 * MB then FatType.Fat16
  else FatType.Fat32

/-- `determine_bytes_per_cluster`: per-variant piecewise tables (the open
brackets use `u64::next_power_of_two`, scaled and truncated `as u32`),
then clamped into `[bytes_per_sector, 32 KiB]`.  The `debug_assert!` on
power-of-two-ness of the intermediate value is a debug-only statement and
does not affect the returned value. -/
def determine_bytes_per_cluster (total_bytes : Nat) (fat_type : FatType)
    (bytes_per_sector : Nat) : Nat :=
  let bytes_per_cluster :=
    match fat_type with
    | FatType.Fat12 => u64NextPowerOfTwo total_bytes / MB * 512 % 2 ^ 32
    | FatType.Fat16 =>
      if total_bytes ≤ 16 * MB then 1 * KB
      else if total_bytes ≤ 128 * MB then 2 * KB
      else u64NextPowerOfTwo total_bytes / (64 * MB) * KB % 2 ^ 32
    | FatType.Fat32 =>
      if total_bytes ≤ 260 * MB then 512
      else if total_bytes ≤ 8 * GB then 4 * KB
      else u64NextPowerOfTwo total_bytes / (2 * GB) * KB % 2 ^ 32
  min (max bytes_per_cluster bytes_per_sector) (32 * KB)

/-- `determine_sectors_per_fat`: the approximation formula, with u32
wrapping on the subtraction/additions exactly as the release-mode source
(`tmp_val1 + (tmp_val2 - 1)) / tmp_val2`; Rust would panic on a zero
`tmp_val2`, the Lean model totalizes the division as `0`). -/
def determine_sectors_per_fat (total_sectors reserved_sectors fats
    root_dir_sectors sectors_per_cluster : Nat) (fat_type : FatType) : Nat :=
  let tmp_val1 :=
    (total_sectors + 2 ^ 32 - (reserved_sectors + root_dir_sectors) % 2 ^ 32) % 2 ^ 32
  let t2 := 256 * sectors_per_cluster + fats
  let tmp_val2 :=
    if fat_type = FatType.Fat32 then t2 / 2
    else if fat_type = FatType.Fat12 then t2 / 3 * 4
    else t2
  (tmp_val1 + (tmp_val2 + 2 ^ 32 - 1) % 2 ^ 32) % 2 ^ 32 / tmp_val2

/-- The 11-byte default volume label `b"NO NAME    "`. -/
def noNameLabel : List Nat :=
  [0x4E, 0x4F, 0x20, 0x4E, 0x41, 0x4D, 0x45, 0x20, 0x20, 0x20, 0x20]

/-- The 8-byte `fs_type_label` literal for each variant
(`b"FAT12   "` / `b"FAT16   "` / `b"FAT32   "`). -/
def fsTypeLabel : FatType → List Nat
  | FatType.Fat12 => [0x46, 0x41, 0x54, 0x31, 0x32, 0x20, 0x20, 0x20]
  | FatType.Fat16 => [0x46, 0x41, 0x54, 0x31, 0x36, 0x20, 0x20, 0x20]
  | FatType.Fat32 => [0x46, 0x41, 0x54, 0x33, 0x32, 0x20, 0x20, 0x20]

/-- The FAT type chosen by `format_bpb`: the override if present, else
derived from the total byte count. -/
def formatFatType (options : FormatVolumeOptions) : FatType :=
  options.fat_type.getD
    (determine_fat_type (options.total_sectors * options.bytes_per_sector))

/-- The `bytes_per_cluster` chosen by `format_bpb`. -/
def formatBytesPerCluster (options : FormatVolumeOptions) : Nat :=
  options.bytes_per_cluster.getD
    (determine_bytes_per_cluster
      (options.total_sectors * options.bytes_per_sector)
      (formatFatType options) options.bytes_per_sector)

/-- `(bytes_per_cluster / bytes_per_sector) as u8` of `format_bpb`. -/
def formatSectorsPerCluster (options : FormatVolumeOptions) : Nat :=
  formatBytesPerCluster options / options.bytes_per_sector % 2 ^ 8

/-- The reserved-sector count chosen by `format_bpb`: 4 for FAT32 (two
boot sectors plus one FS Info sector), 1 otherwise. -/
def formatReservedSectors (options : FormatVolumeOptions) : Nat :=
  if formatFatType options = FatType.Fat32 then 4 else 1

/-- The root-entry count chosen by `format_bpb`: forced 0 for FAT32, else
the override or 512. -/
def formatRootEntries (options : FormatVolumeOptions) : Nat :=
  if formatFatType options = FatType.Fat32 then 0
  else options.root_entries.getD 512

/-- The root-directory sector count of `format_bpb` (ceiling division; a
zero `bytes_per_sector` would make the Rust source panic). -/
def formatRootDirSectors (options : FormatVolumeOptions) : Nat :=
  (formatRootEntries options * DIR_ENTRY_SIZE + options.bytes_per_sector - 1) /
    options.bytes_per_sector

/-- The `sectors_per_fat` value computed by `format_bpb`. -/
def formatSectorsPerFat (options : FormatVolumeOptions) : Nat :=
  determine_sectors_per_fat options.total_sectors
    (formatReservedSectors options) 2 (formatRootDirSectors options)
    (formatSectorsPerCluster options) (formatFatType options)

/-- The BPB record assembled by `format_bpb` (before its final
consistency gate). -/
def formatBpbRecord (options : FormatVolumeOptions) : BiosParameterBlock :=
  let fat_type := formatFatType options
  let is_fat32 := fat_type = FatType.Fat32
  let sectors_per_fat := formatSectorsPerFat options
  { bytes_per_sector := options.bytes_per_sector,
    sectors_per_cluster := formatSectorsPerCluster options,
    reserved_sectors := formatReservedSectors options,
    fats := 2,
    root_entries := formatRootEntries options,
    total_sectors_16 :=
      if options.total_sectors < 0x10000 then options.total_sectors else 0,
    media := options.media.getD 0xF8,
    sectors_per_fat_16 := if is_fat32 then 0 else sectors_per_fat % 2 ^ 16,
    sectors_per_track := options.sectors_per_track.getD 0x20,
    heads := options.heads.getD 0x40,
    hidden_sectors := 0,
    total_sectors_32 :=
      if options.total_sectors ≥ 0x10000 then options.total_sectors else 0,
    sectors_per_fat_32 := if is_fat32 then sectors_per_fat else 0,
    extended_flags := 0,
    fs_version := 0,
    root_dir_first_cluster := if is_fat32 then 2 else 0,
    fs_info_sector := if is_fat32 then 1 else 0,
    backup_boot_sector := if is_fat32 then 6 else 0,
    reserved_0 := List.replicate 12 0,
    drive_num := options.drive_num.getD
      (if fat_type = FatType.Fat12 then 0 else 0x80),
    reserved_1 := 0,
    ext_sig := 0x29,
    volume_id := options.volume_id.getD 0x12345678,
    volume_label := options.volume_label.getD noNameLabel,
    fs_type_label := fsTypeLabel (formatFatType options) }

/-- `format_bpb`: the linear derivation pipeline, with its two failure
points — the volume-too-small rejection and the final
FAT-type/cluster-count consistency gate — carrying the error strings of
the source. -/
def format_bpb (options : FormatVolumeOptions) :
    Except String (BiosParameterBlock × FatType) :=
  if options.total_sectors ≤
      formatReservedSectors options + formatRootDirSectors options + 8 then
    Except.error "Volume is too small"
  else if FatType.from_clusters (formatBpbRecord options).total_clusters ≠
      formatFatType options then
    Except.error "Total number of clusters and FAT type does not match. Try other volume size"
  else
    Except.ok (formatBpbRecord options, formatFatType options)

/-- The 129-byte legacy boot-code stub of `format_boot_sector`. -/
def bootCodeStub : List Nat :=
  [0x0E, 0x1F, 0xBE, 0x77, 0x7C, 0xAC, 0x22, 0xC0, 0x74, 0x0B, 0x56, 0xB4,
   0x0E, 0xBB, 0x07, 0x00, 0xCD, 0x10, 0x5E, 0xEB, 0xF0, 0x32, 0xE4, 0xCD,
   0x16, 0xCD, 0x19, 0xEB, 0xFE, 0x54, 0x68, 0x69, 0x73, 0x20, 0x69, 0x73,
   0x20, 0x6E, 0x6F, 0x74, 0x20, 0x61, 0x20, 0x62, 0x6F, 0x6F, 0x74, 0x61,
   0x62, 0x6C, 0x65, 0x20, 0x64, 0x69, 0x73, 0x6B, 0x2E, 0x20, 0x20, 0x50,
   0x6C, 0x65, 0x61, 0x73, 0x65, 0x20, 0x69, 0x6E, 0x73, 0x65, 0x72, 0x74,
   0x20, 0x61, 0x20, 0x62, 0x6F, 0x6F, 0x74, 0x61, 0x62, 0x6C, 0x65, 0x20,
   0x66, 0x6C, 0x6F, 0x70, 0x70, 0x79, 0x20, 0x61, 0x6E, 0x64, 0x0D, 0x0A,
   0x70, 0x72, 0x65, 0x73, 0x73, 0x20, 0x61, 0x6E, 0x79, 0x20, 0x6B, 0x65,
   0x79, 0x20, 0x74, 0x6F, 0x20, 0x74, 0x72, 0x79, 0x20, 0x61, 0x67, 0x61,
   0x69, 0x6E, 0x20, 0x2E, 0x2E, 0x2E, 0x20, 0x0D, 0x0A]

/-- `format_boot_sector`: delegates to `format_bpb` (propagating its
errors unchanged), then assembles the jump code, OEM name, boot-code stub
and signature; for non-FAT32 volumes the jump-target byte and the two
message-offset bytes are patched. -/
def format_boot_sector (options : FormatVolumeOptions) :
    Except String (BootSector × FatType) :=
  (format_bpb options).map (fun pr =>
    let bpb := pr.1
    let fat_type := pr.2
    let boot : BootSector :=
      { bootjmp := [0xEB, 0x58, 0x90],
        oem_name := [0x4D, 0x53, 0x57, 0x49, 0x4E, 0x34, 0x2E, 0x31],
        bpb := bpb,
        boot_code := bootCodeStub ++ List.replicate (448 - 129) 0,
        boot_sig := [0x55, 0xAA] }
    if fat_type ≠ FatType.Fat32 then
      let boot_code_offset := 0x36 + 8
      let message_offset_in_sector := boot_code_offset + 29 + 0x7C00
      ({ boot with
          bootjmp := boot.bootjmp.set 1 ((boot_code_offset - 2) % 2 ^ 8),
          boot_code :=
            (boot.boot_code.set 3 (message_offset_in_sector % 2 ^ 8)).set 4
              (message_offset_in_sector / 2 ^ 8 % 2 ^ 8) }, fat_type)
    else
      (boot, fat_type))

/-! ### Well-formed (validly constructed) values

`wfBpb` is the shallow-embedding image of the Rust type invariants of
`BiosParameterBlock`: every integer field fits its declared machine width,
every byte array has its declared length and byte-sized elements, fields
that exist only in the FAT32 extended form are at their `Default` (zero)
value on a non-FAT32 record (the only way such a record is ever built:
`deserialize` never reads them and `format_bpb` zeroes them), and the
fields behind a non-`0x29` extended signature are zeroed (as `deserialize`
forces and `format_bpb` trivially satisfies by writing `0x29`). -/
def wfBpb (bpb : BiosParameterBlock) : Prop :=
  bpb.bytes_per_sector < 2 ^ 16 ∧
  bpb.sectors_per_cluster < 2 ^ 8 ∧
  bpb.reserved_sectors < 2 ^ 16 ∧
  bpb.fats < 2 ^ 8 ∧
  bpb.root_entries < 2 ^ 16 ∧
  bpb.total_sectors_16 < 2 ^ 16 ∧
  bpb.media < 2 ^ 8 ∧
  bpb.sectors_per_fat_16 < 2 ^ 16 ∧
  bpb.sectors_per_track < 2 ^ 16 ∧
  bpb.heads < 2 ^ 16 ∧
  bpb.hidden_sectors < 2 ^ 32 ∧
  bpb.total_sectors_32 < 2 ^ 32 ∧
  bpb.sectors_per_fat_32 < 2 ^ 32 ∧
  bpb.extended_flags < 2 ^ 16 ∧
  bpb.fs_version < 2 ^ 16 ∧
  bpb.root_dir_first_cluster < 2 ^ 32 ∧
  bpb.fs_info_sector < 2 ^ 16 ∧
  bpb.backup_boot_sector < 2 ^ 16 ∧
  bpb.reserved_0.length = 12 ∧ (∀ x ∈ bpb.reserved_0, x < 2 ^ 8) ∧
  bpb.drive_num < 2 ^ 8 ∧
  bpb.reserved_1 < 2 ^ 8 ∧
  bpb.ext_sig < 2 ^ 8 ∧
  bpb.volume_id < 2 ^ 32 ∧
  bpb.volume_label.length = 11 ∧ (∀ x ∈ bpb.volume_label, x < 2 ^ 8) ∧
  bpb.fs_type_label.length = 8 ∧ (∀ x ∈ bpb.fs_type_label, x < 2 ^ 8) ∧
  (bpb.sectors_per_fat_16 ≠ 0 →
    bpb.sectors_per_fat_32 = 0 ∧ bpb.extended_flags = 0 ∧
    bpb.fs_version = 0 ∧ bpb.root_dir_first_cluster = 0 ∧
    bpb.fs_info_sector = 0 ∧ bpb.backup_boot_sector = 0 ∧
    bpb.reserved_0 = List.replicate 12 0) ∧
  (bpb.ext_sig ≠ 0x29 →
    bpb.volume_id = 0 ∧ bpb.volume_label = List.replicate 11 0 ∧
    bpb.fs_type_label = List.replicate 8 0)

/-- The Rust type invariants of `BootSector`: array lengths and byte-sized
elements, a well-formed embedded BPB, and — on a FAT32 record — zeroes in
the last 28 boot-code bytes (the only way a FAT32 `BootSector` is ever
built: `deserialize` reads just 420 bytes into a zeroed buffer and
`format_boot_sector` writes a 129-byte stub into a zeroed buffer). -/
def wfBoot (boot : BootSector) : Prop :=
  boot.bootjmp.length = 3 ∧ (∀ x ∈ boot.bootjmp, x < 2 ^ 8) ∧
  boot.oem_name.length = 8 ∧ (∀ x ∈ boot.oem_name, x < 2 ^ 8) ∧
  wfBpb boot.bpb ∧
  boot.boot_code.length = 448 ∧ (∀ x ∈ boot.boot_code, x < 2 ^ 8) ∧
  boot.boot_sig.length = 2 ∧ (∀ x ∈ boot.boot_sig, x < 2 ^ 8) ∧
  (boot.bpb.is_fat32 → boot.boot_code.drop 420 = List.replicate 28 0)

/-! ### Round-trip lemmas for the primitive codecs -/

lemma r8_w8 {v : Nat} (h : v < 2 ^ 8) (s : List Nat) :
    r8 (w8 v ++ s) = some (v, s) := by
  simp only [w8, List.cons_append, List.nil_append, r8]
  rw [Nat.mod_eq_of_lt (by omega : v < 256)]

lemma r16_w16 {v : Nat} (h : v < 2 ^ 16) (s : List Nat) :
    r16 (w16 v ++ s) = some (v, s) := by
  simp only [w16, List.cons_append, List.nil_append, r16]
  refine congrArg some (Prod.ext ?_ rfl)
  simp only
  omega

lemma r32_w32 {v : Nat} (h : v < 2 ^ 32) (s : List Nat) :
    r32 (w32 v ++ s) = some (v, s) := by
  simp only [w32, List.cons_append, List.nil_append, r32]
  refine congrArg some (Prod.ext ?_ rfl)
  simp only
  omega

lemma readExact_append {n : Nat} {l : List Nat} (h : l.length = n)
    (s : List Nat) : readExact n (l ++ s) = some (l, s) := by
  subst h
  simp [readExact, List.take_left, List.drop_left]

/-- Generalized BPB round trip: deserializing a serialized well-formed BPB
succeeds, returns the same record and leaves exactly the trailing bytes. -/
lemma BiosParameterBlock.deserialize_serialize (bpb : BiosParameterBlock)
    (h : wfBpb bpb) (rest : List Nat) :
    BiosParameterBlock.deserialize (bpb.serialize ++ rest) = some (bpb, rest) := by
  obtain ⟨bps, spc, rsv, fats, re, ts16, media, spf16, spt, heads, hidden,
    ts32, spf32, ef, fsv, rdfc, fis, bbs, res0, dn, r1, es, vid, vl, ftl⟩ := bpb
  obtain ⟨h1, h2, h3, h4, h5, h6, h7, h8, h9, h10, h11, h12, h13, h14, h15,
    h16, h17, h18, h19l, h19e, h20, h21, h22, h23, h24l, h24e, h25l, h25e,
    hshort, hsig⟩ := h
  by_cases hf : spf16 = 0
  · subst hf
    by_cases he : es = 0x29
    · subst he
      simp only [BiosParameterBlock.serialize, BiosParameterBlock.deserialize,
        BiosParameterBlock.readExtTail, BiosParameterBlock.is_fat32,
        List.append_assoc,
        r16_w16 h1, r8_w8 h2, r16_w16 h3, r8_w8 h4, r16_w16 h5, r16_w16 h6,
        r8_w8 h7, r16_w16 h8, r16_w16 h9, r16_w16 h10, r32_w32 h11,
        r32_w32 h12, r32_w32 h13, r16_w16 h14, r16_w16 h15, r32_w32 h16,
        r16_w16 h17, r16_w16 h18, readExact_append h19l, r8_w8 h20,
        r8_w8 h21, r8_w8 h22, r32_w32 h23, readExact_append h24l,
        readExact_append h25l,
        beq_self_eq_true, ne_eq, eq_self_iff_true, not_true_eq_false,
        not_false_eq_true, if_true, if_false, ite_true, ite_false]
    · obtain ⟨hv1, hv2, hv3⟩ := hsig he
      subst hv1; subst hv2; subst hv3
      have hne : (es = 0x29) = False := by simp [he]
      simp only [BiosParameterBlock.serialize, BiosParameterBlock.deserialize,
        BiosParameterBlock.readExtTail, BiosParameterBlock.is_fat32,
        List.append_assoc,
        r16_w16 h1, r8_w8 h2, r16_w16 h3, r8_w8 h4, r16_w16 h5, r16_w16 h6,
        r8_w8 h7, r16_w16 h8, r16_w16 h9, r16_w16 h10, r32_w32 h11,
        r32_w32 h12, r32_w32 h13, r16_w16 h14, r16_w16 h15, r32_w32 h16,
        r16_w16 h17, r16_w16 h18, readExact_append h19l, r8_w8 h20,
        r8_w8 h21, r8_w8 h22,
        r32_w32 (show (0 : Nat) < 2 ^ 32 by norm_num),
        readExact_append (show (List.replicate 11 (0 : Nat)).length = 11 by simp),
        readExact_append (show (List.replicate 8 (0 : Nat)).length = 8 by simp),
        beq_self_eq_true, hne, ne_eq, eq_self_iff_true, not_true_eq_false,
        not_false_eq_true, if_true, if_false, ite_true, ite_false]
  · obtain ⟨hx1, hx2, hx3, hx4, hx5, hx6, hx7⟩ := hshort hf
    subst hx1; subst hx2; subst hx3; subst hx4; subst hx5; subst hx6; subst hx7
    have hb : (spf16 == 0) = false := by simp [hf]
    by_cases he : es = 0x29
    · subst he
      simp only [BiosParameterBlock.serialize, BiosParameterBlock.deserialize,
        BiosParameterBlock.readShortTail, BiosParameterBlock.is_fat32,
        List.append_assoc,
        r16_w16 h1, r8_w8 h2, r16_w16 h3, r8_w8 h4, r16_w16 h5, r16_w16 h6,
        r8_w8 h7, r16_w16 h8, r16_w16 h9, r16_w16 h10, r32_w32 h11,
        r32_w32 h12, r8_w8 h20, r8_w8 h21, r8_w8 h22, r32_w32 h23,
        readExact_append h24l, readExact_append h25l,
        hb, ne_eq, eq_self_iff_true, not_true_eq_false,
        not_false_eq_true, if_true, if_false, ite_true, ite_false,
        Bool.false_eq_true]
    · obtain ⟨hv1, hv2, hv3⟩ := hsig he
      subst hv1; subst hv2; subst hv3
      have hne : (es = 0x29) = False := by simp [he]
      simp only [BiosParameterBlock.serialize, BiosParameterBlock.deserialize,
        BiosParameterBlock.readShortTail, BiosParameterBlock.is_fat32,
        List.append_assoc,
        r16_w16 h1, r8_w8 h2, r16_w16 h3, r8_w8 h4, r16_w16 h5, r16_w16 h6,
        r8_w8 h7, r16_w16 h8, r16_w16 h9, r16_w16 h10, r32_w32 h11,
        r32_w32 h12, r8_w8 h20, r8_w8 h21, r8_w8 h22,
        r32_w32 (show (0 : Nat) < 2 ^ 32 by norm_num),
        readExact_append (show (List.replicate 11 (0 : Nat)).length = 11 by simp),
        readExact_append (show (List.replicate 8 (0 : Nat)).length = 8 by simp),
        hb, hne, ne_eq, eq_self_iff_true, not_true_eq_false,
        not_false_eq_true, if_true, if_false, ite_true, ite_false,
        Bool.false_eq_true]

/-- Generalized BootSector round trip. -/
lemma BootSector.deserialize_serialize_boot (boot : BootSector)
    (h : wfBoot boot) (rest : List Nat) :
    BootSector.deserialize (boot.serialize ++ rest) = some (boot, rest) := by
  obtain ⟨bj, oem, bpb, code, sig⟩ := boot
  obtain ⟨hj, hj2, ho, ho2, hbpb, hc, hc2, hs, hs2, hdrop⟩ := h
  dsimp only at hj ho hbpb hc hs hdrop
  by_cases hf : bpb.is_fat32
  · have hcode : code.take 420 ++ List.replicate 28 (0 : Nat) = code := by
      rw [← hdrop hf]
      exact List.take_append_drop 420 code
    have htake : (code.take 420).length = 420 := by
      rw [List.length_take]
      omega
    simp only [BootSector.serialize, BootSector.deserialize, List.append_assoc,
      readExact_append hj, readExact_append ho,
      BiosParameterBlock.deserialize_serialize bpb hbpb,
      hf, if_true, ite_true,
      readExact_append htake, readExact_append hs, hcode]
  · have hb : bpb.is_fat32 = false := by
      revert hf
      cases bpb.is_fat32 <;> simp
    have htake : code.take 448 = code := by
      apply List.take_of_length_le
      omega
    simp only [BootSector.serialize, BootSector.deserialize, List.append_assoc,
      readExact_append hj, readExact_append ho,
      BiosParameterBlock.deserialize_serialize bpb hbpb,
      hb, if_false, ite_false, Bool.false_eq_true, htake,
      readExact_append hc, readExact_append hs]

/-! ### Consumption lemmas: each primitive reader consumes a fixed number
of bytes -/

lemma r8_length {s : List Nat} {v : Nat} {r : List Nat}
    (h : r8 s = some (v, r)) : s.length = 1 + r.length := by
  cases s with
  | nil => simp [r8] at h
  | cons a t =>
    simp [r8] at h
    obtain ⟨-, rfl⟩ := h
    simp [Nat.add_comm]

lemma r16_length {s : List Nat} {v : Nat} {r : List Nat}
    (h : r16 s = some (v, r)) : s.length = 2 + r.length := by
  match s with
  | [] => simp [r16] at h
  | [a] => simp [r16] at h
  | a :: b :: t =>
    simp [r16] at h
    obtain ⟨-, rfl⟩ := h
    simp
    omega

lemma r32_length {s : List Nat} {v : Nat} {r : List Nat}
    (h : r32 s = some (v, r)) : s.length = 4 + r.length := by
  match s with
  | [] => simp [r32] at h
  | [a] => simp [r32] at h
  | [a, b] => simp [r32] at h
  | [a, b, c] => simp [r32] at h
  | a :: b :: c :: d :: t =>
    simp [r32] at h
    obtain ⟨-, rfl⟩ := h
    simp
    omega

lemma readExact_length {n : Nat} {s l r : List Nat}
    (h : readExact n s = some (l, r)) : s.length = n + r.length := by
  unfold readExact at h
  split at h
  · simp only [Option.some.injEq, Prod.mk.injEq] at h
    obtain ⟨-, rfl⟩ := h
    simp
    omega
  · simp at h

/-- The FAT32 extended tail consumes exactly 54 bytes and does not touch
`sectors_per_fat_16`. -/
lemma BiosParameterBlock.readExtTail_length {bpb : BiosParameterBlock}
    {s : List Nat} {bpb2 : BiosParameterBlock} {r : List Nat}
    (h : bpb.readExtTail s = some (bpb2, r)) :
    s.length = 54 + r.length ∧ bpb2.sectors_per_fat_16 = bpb.sectors_per_fat_16 := by
  unfold BiosParameterBlock.readExtTail at h
  cases hx1 : r32 s with
  | none => simp [hx1] at h
  | some p1 =>
  obtain ⟨v1, s1⟩ := p1
  simp only [hx1] at h
  cases hx2 : r16 s1 with
  | none => simp [hx2] at h
  | some p2 =>
  obtain ⟨v2, s2⟩ := p2
  simp only [hx2] at h
  cases hx3 : r16 s2 with
  | none => simp [hx3] at h
  | some p3 =>
  obtain ⟨v3, s3⟩ := p3
  simp only [hx3] at h
  cases hx4 : r32 s3 with
  | none => simp [hx4] at h
  | some p4 =>
  obtain ⟨v4, s4⟩ := p4
  simp only [hx4] at h
  cases hx5 : r16 s4 with
  | none => simp [hx5] at h
  | some p5 =>
  obtain ⟨v5, s5⟩ := p5
  simp only [hx5] at h
  cases hx6 : r16 s5 with
  | none => simp [hx6] at h
  | some p6 =>
  obtain ⟨v6, s6⟩ := p6
  simp only [hx6] at h
  cases hx7 : readExact 12 s6 with
  | none => simp [hx7] at h
  | some p7 =>
  obtain ⟨v7, s7⟩ := p7
  simp only [hx7] at h
  cases hx8 : r8 s7 with
  | none => simp [hx8] at h
  | some p8 =>
  obtain ⟨v8, s8⟩ := p8
  simp only [hx8] at h
  cases hx9 : r8 s8 with
  | none => simp [hx9] at h
  | some p9 =>
  obtain ⟨v9, s9⟩ := p9
  simp only [hx9] at h
  cases hx10 : r8 s9 with
  | none => simp [hx10] at h
  | some p10 =>
  obtain ⟨v10, s10⟩ := p10
  simp only [hx10] at h
  cases hx11 : r32 s10 with
  | none => simp [hx11] at h
  | some p11 =>
  obtain ⟨v11, s11⟩ := p11
  simp only [hx11] at h
  cases hx12 : readExact 11 s11 with
  | none => simp [hx12] at h
  | some p12 =>
  obtain ⟨v12, s12⟩ := p12
  simp only [hx12] at h
  cases hx13 : readExact 8 s12 with
  | none => simp [hx13] at h
  | some p13 =>
  obtain ⟨v13, s13⟩ := p13
  simp only [hx13] at h
  simp only [Option.some.injEq, Prod.mk.injEq] at h
  obtain ⟨hb, hr⟩ := h
  subst hr
  have l1 := r32_length hx1
  have l2 := r16_length hx2
  have l3 := r16_length hx3
  have l4 := r32_length hx4
  have l5 := r16_length hx5
  have l6 := r16_length hx6
  have l7 := readExact_length hx7
  have l8 := r8_length hx8
  have l9 := r8_length hx9
  have l10 := r8_length hx10
  have l11 := r32_length hx11
  have l12 := readExact_length hx12
  have l13 := readExact_length hx13
  constructor
  · omega
  · rw [← hb]

/-- The short tail consumes exactly 26 bytes and does not touch
`sectors_per_fat_16`. -/
lemma BiosParameterBlock.readShortTail_length {bpb : BiosParameterBlock}
    {s : List Nat} {bpb2 : BiosParameterBlock} {r : List Nat}
    (h : bpb.readShortTail s = some (bpb2, r)) :
    s.length = 26 + r.length ∧ bpb2.sectors_per_fat_16 = bpb.sectors_per_fat_16 := by
  unfold BiosParameterBlock.readShortTail at h
  cases hx1 : r8 s with
  | none => simp [hx1] at h
  | some p1 =>
  obtain ⟨v1, s1⟩ := p1
  simp only [hx1] at h
  cases hx2 : r8 s1 with
  | none => simp [hx2] at h
  | some p2 =>
  obtain ⟨v2, s2⟩ := p2
  simp only [hx2] at h
  cases hx3 : r8 s2 with
  | none => simp [hx3] at h
  | some p3 =>
  obtain ⟨v3, s3⟩ := p3
  simp only [hx3] at h
  cases hx4 : r32 s3 with
  | none => simp [hx4] at h
  | some p4 =>
  obtain ⟨v4, s4⟩ := p4
  simp only [hx4] at h
  cases hx5 : readExact 11 s4 with
  | none => simp [hx5] at h
  | some p5 =>
  obtain ⟨v5, s5⟩ := p5
  simp only [hx5] at h
  cases hx6 : readExact 8 s5 with
  | none => simp [hx6] at h
  | some p6 =>
  obtain ⟨v6, s6⟩ := p6
  simp only [hx6] at h
  simp only [Option.some.injEq, Prod.mk.injEq] at h
  obtain ⟨hb, hr⟩ := h
  subst hr
  have l1 := r8_length hx1
  have l2 := r8_length hx2
  have l3 := r8_length hx3
  have l4 := r32_length hx4
  have l5 := readExact_length hx5
  have l6 := readExact_length hx6
  constructor
  · omega
  · rw [← hb]

/-- A successful `BiosParameterBlock::deserialize` consumes exactly 79
(FAT32 form) or 51 (short form) bytes, with the form recorded in the
returned record itself. -/
lemma BiosParameterBlock.deserialize_length {s : List Nat}
    {bpb : BiosParameterBlock} {r : List Nat}
    (h : BiosParameterBlock.deserialize s = some (bpb, r)) :
    s.length = (if bpb.is_fat32 then 79 else 51) + r.length := by
  unfold BiosParameterBlock.deserialize at h
  cases hx1 : r16 s with
  | none => simp [hx1] at h
  | some p1 =>
  obtain ⟨v1, s1⟩ := p1
  simp only [hx1] at h
  cases hx2 : r8 s1 with
  | none => simp [hx2] at h
  | some p2 =>
  obtain ⟨v2, s2⟩ := p2
  simp only [hx2] at h
  cases hx3 : r16 s2 with
  | none => simp [hx3] at h
  | some p3 =>
  obtain ⟨v3, s3⟩ := p3
  simp only [hx3] at h
  cases hx4 : r8 s3 with
  | none => simp [hx4] at h
  | some p4 =>
  obtain ⟨v4, s4⟩ := p4
  simp only [hx4] at h
  cases hx5 : r16 s4 with
  | none => simp [hx5] at h
  | some p5 =>
  obtain ⟨v5, s5⟩ := p5
  simp only [hx5] at h
  cases hx6 : r16 s5 with
  | none => simp [hx6] at h
  | some p6 =>
  obtain ⟨v6, s6⟩ := p6
  simp only [hx6] at h
  cases hx7 : r8 s6 with
  | none => simp [hx7] at h
  | some p7 =>
  obtain ⟨v7, s7⟩ := p7
  simp only [hx7] at h
  cases hx8 : r16 s7 with
  | none => simp [hx8] at h
  | some p8 =>
  obtain ⟨v8, s8⟩ := p8
  simp only [hx8] at h
  cases hx9 : r16 s8 with
  | none => simp [hx9] at h
  | some p9 =>
  obtain ⟨v9, s9⟩ := p9
  simp only [hx9] at h
  cases hx10 : r16 s9 with
  | none => simp [hx10] at h
  | some p10 =>
  obtain ⟨v10, s10⟩ := p10
  simp only [hx10] at h
  cases hx11 : r32 s10 with
  | none => simp [hx11] at h
  | some p11 =>
  obtain ⟨v11, s11⟩ := p11
  simp only [hx11] at h
  cases hx12 : r32 s11 with
  | none => simp [hx12] at h
  | some p12 =>
  obtain ⟨v12, s12⟩ := p12
  simp only [hx12] at h
  have l1 := r16_length hx1
  have l2 := r8_length hx2
  have l3 := r16_length hx3
  have l4 := r8_length hx4
  have l5 := r16_length hx5
  have l6 := r16_length hx6
  have l7 := r8_length hx7
  have l8 := r16_length hx8
  have l9 := r16_length hx9
  have l10 := r16_length hx10
  have l11 := r32_length hx11
  have l12 := r32_length hx12
  by_cases hf : v8 = 0
  · subst hf
    simp only [BiosParameterBlock.is_fat32, beq_self_eq_true, if_true,
      ite_true] at h
    cases hx13 : BiosParameterBlock.readExtTail
        { bytes_per_sector := v1, sectors_per_cluster := v2,
          reserved_sectors := v3, fats := v4, root_entries := v5,
          total_sectors_16 := v6, media := v7, sectors_per_fat_16 := 0,
          sectors_per_track := v9, heads := v10, hidden_sectors := v11,
          total_sectors_32 := v12 } s12 with
    | none =>
      simp only [hx13] at h
      exact Option.noConfusion h
    | some p13 =>
    obtain ⟨bpbx, s13⟩ := p13
    simp only [hx13] at h
    obtain ⟨l13, hfat⟩ := BiosParameterBlock.readExtTail_length hx13
    split at h <;>
    · simp only [Option.some.injEq, Prod.mk.injEq] at h
      obtain ⟨hb, hr⟩ := h
      subst hr
      rw [← hb]
      simp only [BiosParameterBlock.is_fat32, hfat, beq_self_eq_true,
        if_true, ite_true]
      omega
  · have hbeq : (v8 == 0) = false := by simp [hf]
    simp only [BiosParameterBlock.is_fat32, hbeq, if_false, ite_false,
      Bool.false_eq_true] at h
    cases hx13 : BiosParameterBlock.readShortTail
        { bytes_per_sector := v1, sectors_per_cluster := v2,
          reserved_sectors := v3, fats := v4, root_entries := v5,
          total_sectors_16 := v6, media := v7, sectors_per_fat_16 := v8,
          sectors_per_track := v9, heads := v10, hidden_sectors := v11,
          total_sectors_32 := v12 } s12 with
    | none =>
      simp only [hx13] at h
      exact Option.noConfusion h
    | some p13 =>
    obtain ⟨bpbx, s13⟩ := p13
    simp only [hx13] at h
    obtain ⟨l13, hfat⟩ := BiosParameterBlock.readShortTail_length hx13
    split at h <;>
    · simp only [Option.some.injEq, Prod.mk.injEq] at h
      obtain ⟨hb, hr⟩ := h
      subst hr
      rw [← hb]
      simp only [BiosParameterBlock.is_fat32, hfat, hbeq, if_false,
        ite_false, Bool.false_eq_true]
      omega

/-- `BiosParameterBlock::serialize` writes exactly 79 (FAT32) or 51 (short)
bytes when the three byte arrays have their declared lengths. -/
lemma BiosParameterBlock.serialize_length (bpb : BiosParameterBlock)
    (h0 : bpb.reserved_0.length = 12) (h1 : bpb.volume_label.length = 11)
    (h2 : bpb.fs_type_label.length = 8) :
    bpb.serialize.length = if bpb.is_fat32 then 79 else 51 := by
  by_cases hf : bpb.is_fat32
  · simp [BiosParameterBlock.serialize, hf, w8, w16, w32, h0, h1, h2]
  · simp [BiosParameterBlock.serialize, hf, w8, w16, w32, h1, h2]

/-- A successful `BootSector::deserialize` consumes exactly 512 bytes. -/
lemma BootSector.deserialize_length_boot {s : List Nat} {boot : BootSector}
    {r : List Nat} (h : BootSector.deserialize s = some (boot, r)) :
    s.length = 512 + r.length := by
  unfold BootSector.deserialize at h
  cases hx1 : readExact 3 s with
  | none => simp [hx1] at h
  | some p1 =>
  obtain ⟨v1, s1⟩ := p1
  simp only [hx1] at h
  cases hx2 : readExact 8 s1 with
  | none => simp [hx2] at h
  | some p2 =>
  obtain ⟨v2, s2⟩ := p2
  simp only [hx2] at h
  cases hx3 : BiosParameterBlock.deserialize s2 with
  | none =>
    simp only [hx3] at h
    exact Option.noConfusion h
  | some p3 =>
  obtain ⟨bpb, s3⟩ := p3
  simp only [hx3] at h
  have l1 := readExact_length hx1
  have l2 := readExact_length hx2
  have l3 := BiosParameterBlock.deserialize_length hx3
  by_cases hf : bpb.is_fat32
  · simp only [hf, if_true, ite_true] at h l3
    cases hx4 : readExact 420 s3 with
    | none => simp [hx4] at h
    | some p4 =>
    obtain ⟨v4, s4⟩ := p4
    simp only [hx4] at h
    cases hx5 : readExact 2 s4 with
    | none => simp [hx5] at h
    | some p5 =>
    obtain ⟨v5, s5⟩ := p5
    simp only [hx5] at h
    have l4 := readExact_length hx4
    have l5 := readExact_length hx5
    simp only [Option.some.injEq, Prod.mk.injEq] at h
    obtain ⟨-, hr⟩ := h
    subst hr
    omega
  · simp only [hf, if_false, ite_false, Bool.false_eq_true] at h l3
    cases hx4 : readExact 448 s3 with
    | none => simp [hx4] at h
    | some p4 =>
    obtain ⟨v4, s4⟩ := p4
    simp only [hx4] at h
    cases hx5 : readExact 2 s4 with
    | none => simp [hx5] at h
    | some p5 =>
    obtain ⟨v5, s5⟩ := p5
    simp only [hx5] at h
    have l4 := readExact_length hx4
    have l5 := readExact_length hx5
    simp only [Option.some.injEq, Prod.mk.injEq] at h
    obtain ⟨-, hr⟩ := h
    subst hr
    omega

/-- `BootSector::serialize` writes exactly 512 bytes for both variants. -/
lemma BootSector.serialize_length_boot (boot : BootSector)
    (hj : boot.bootjmp.length = 3) (ho : boot.oem_name.length = 8)
    (hc : boot.boot_code.length = 448) (hs : boot.boot_sig.length = 2)
    (h0 : boot.bpb.reserved_0.length = 12)
    (h1 : boot.bpb.volume_label.length = 11)
    (h2 : boot.bpb.fs_type_label.length = 8) :
    boot.serialize.length = 512 := by
  have hb := boot.bpb.serialize_length h0 h1 h2
  by_cases hf : boot.bpb.is_fat32
  · rw [hf] at hb
    simp only [if_true, ite_true] at hb
    simp [BootSector.serialize, hf, hj, ho, hb, hc, hs]
  · have hf2 : boot.bpb.is_fat32 = false := by
      revert hf
      cases boot.bpb.is_fat32 <;> simp
    rw [hf2] at hb
    simp only [Bool.false_eq_true, if_false, ite_false] at hb
    simp [BootSector.serialize, hf2, hj, ho, hb, hc, hs]

/-! ### Concrete sample values used by the witnesses -/

/-- A well-formed FAT16 BPB (passes `validate`): 512-byte sectors, 1 sector
per cluster, 32 sectors per FAT, 20000 total sectors giving 19903 clusters,
squarely in the FAT16 range. -/
def sampleFat16Bpb : BiosParameterBlock :=
  { bytes_per_sector := 512, sectors_per_cluster := 1, reserved_sectors := 1,
    fats := 2, root_entries := 512, total_sectors_16 := 20000, media := 0xF8,
    sectors_per_fat_16 := 32, sectors_per_track := 32, heads := 64,
    hidden_sectors := 0, total_sectors_32 := 0, drive_num := 0x80,
    reserved_1 := 0, ext_sig := 0x29, volume_id := 0x12345678,
    volume_label := noNameLabel, fs_type_label := fsTypeLabel FatType.Fat16 }

/-- A well-formed FAT32 BPB (passes `validate`): 520 sectors per FAT,
100000 total sectors giving 98956 clusters, in the FAT32 range. -/
def sampleFat32Bpb : BiosParameterBlock :=
  { bytes_per_sector := 512, sectors_per_cluster := 1, reserved_sectors := 4,
    fats := 2, root_entries := 0, total_sectors_16 := 0, media := 0xF8,
    sectors_per_fat_16 := 0, sectors_per_track := 32, heads := 64,
    hidden_sectors := 0, total_sectors_32 := 100000,
    sectors_per_fat_32 := 520, extended_flags := 0, fs_version := 0,
    root_dir_first_cluster := 2, fs_info_sector := 1, backup_boot_sector := 6,
    reserved_0 := List.replicate 12 0, drive_num := 0x80, reserved_1 := 0,
    ext_sig := 0x29, volume_id := 0x12345678, volume_label := noNameLabel,
    fs_type_label := fsTypeLabel FatType.Fat32 }

/-- A FAT32 BPB that passes every hard check of `validate` but whose
`sectors_per_fat() * bytes_per_sector * 8` product reaches `2 ^ 35`,
overflowing u32 arithmetic: 4096-byte sectors, one FAT of `2 ^ 20`
sectors, `2 ^ 25` total sectors. -/
def overflowFat32Bpb : BiosParameterBlock :=
  { bytes_per_sector := 4096, sectors_per_cluster := 1, reserved_sectors := 1,
    fats := 1, root_entries := 0, total_sectors_16 := 0, media := 0xF8,
    sectors_per_fat_16 := 0, sectors_per_track := 32, heads := 64,
    hidden_sectors := 0, total_sectors_32 := 2 ^ 25,
    sectors_per_fat_32 := 2 ^ 20, extended_flags := 0, fs_version := 0,
    root_dir_first_cluster := 2, fs_info_sector := 1, backup_boot_sector := 6,
    reserved_0 := List.replicate 12 0, drive_num := 0x80, reserved_1 := 0,
    ext_sig := 0x29, volume_id := 0x12345678, volume_label := noNameLabel,
    fs_type_label := fsTypeLabel FatType.Fat32 }

/-- A well-formed boot sector wrapping `sampleFat16Bpb`. -/
def sampleBoot : BootSector :=
  { bootjmp := [0xEB, 0x3C, 0x90],
    oem_name := [0x4D, 0x53, 0x57, 0x49, 0x4E, 0x34, 0x2E, 0x31],
    bpb := sampleFat16Bpb,
    boot_code := List.replicate 448 0,
    boot_sig := [0x55, 0xAA] }

/-- A well-formed boot sector wrapping `sampleFat32Bpb`. -/
def sampleBoot32 : BootSector :=
  { bootjmp := [0xEB, 0x58, 0x90],
    oem_name := [0x4D, 0x53, 0x57, 0x49, 0x4E, 0x34, 0x2E, 0x31],
    bpb := sampleFat32Bpb,
    boot_code := List.replicate 448 0,
    boot_sig := [0x55, 0xAA] }

/-- Format options describing a 16 MiB volume with 512-byte sectors and no
overrides. -/
def sampleOpts : FormatVolumeOptions :=
  { bytes_per_sector := 512, total_sectors := 32768 }

instance : DecidablePred wfBpb := fun bpb => by
  unfold wfBpb
  infer_instance

instance : DecidablePred wfBoot := fun boot => by
  unfold wfBoot
  infer_instance

example : wfBpb sampleFat16Bpb := by decide
example : wfBpb sampleFat32Bpb := by decide
example : wfBoot sampleBoot := by decide
example : sampleFat16Bpb.validate = Except.ok () := by rfl
example : sampleFat32Bpb.validate = Except.ok () := by rfl
example : overflowFat32Bpb.validate = Except.ok () := by rfl

/-! ### Claim theorems -/

/-- **C1** — Round-trip of the codecs: for every validly constructed
`BiosParameterBlock` (either variant form, `wfBpb` being the embedding of
"validly constructed": machine-width fields, declared array lengths, and
the structural zeroing that every constructor of such a value — a
successful `deserialize` or `format_bpb` — guarantees), deserializing the
bytes produced by `serialize` succeeds and yields the same value; likewise
for `BootSector`. -/
theorem claim_C1_codec_roundtrip :
    (∀ bpb : BiosParameterBlock, wfBpb bpb →
      BiosParameterBlock.deserialize bpb.serialize = some (bpb, [])) ∧
    (∀ boot : BootSector, wfBoot boot →
      BootSector.deserialize boot.serialize = some (boot, [])) := by
  constructor
  · intro bpb h
    have := BiosParameterBlock.deserialize_serialize bpb h []
    simpa using this
  · intro boot h
    have := BootSector.deserialize_serialize_boot boot h []
    simpa using this

/-- Witness for C1 at concrete inputs (a short-form BPB and a boot sector
wrapping it). -/
theorem claim_C1_codec_roundtrip_witness :
    BiosParameterBlock.deserialize sampleFat16Bpb.serialize
      = some (sampleFat16Bpb, []) ∧
    BootSector.deserialize sampleBoot.serialize = some (sampleBoot, []) :=
  ⟨claim_C1_codec_roundtrip.1 sampleFat16Bpb (by decide),
   claim_C1_codec_roundtrip.2 sampleBoot (by decide)⟩

/-- **C9** — Constant 512-byte frame: `BootSector::serialize` writes
exactly 512 bytes regardless of variant (for any boot sector whose arrays
have their declared Rust lengths), and a successful
`BootSector::deserialize` consumes exactly 512 bytes from its input. -/
theorem claim_C9_fixed_frame :
    (∀ boot : BootSector,
      boot.bootjmp.length = 3 → boot.oem_name.length = 8 →
      boot.boot_code.length = 448 → boot.boot_sig.length = 2 →
      boot.bpb.reserved_0.length = 12 → boot.bpb.volume_label.length = 11 →
      boot.bpb.fs_type_label.length = 8 →
      boot.serialize.length = 512) ∧
    (∀ (s : List Nat) (boot : BootSector) (rest : List Nat),
      BootSector.deserialize s = some (boot, rest) →
      s.length = 512 + rest.length) := by
  constructor
  · intro boot hj ho hc hs h0 h1 h2
    exact boot.serialize_length_boot hj ho hc hs h0 h1 h2
  · intro s boot rest h
    exact BootSector.deserialize_length_boot h

/-- Witness for C9 at a concrete boot sector (serialize side) and at its
own serialized byte string (deserialize side). -/
theorem claim_C9_fixed_frame_witness :
    sampleBoot.serialize.length = 512 ∧
    sampleBoot.serialize.length = 512 + ([] : List Nat).length :=
  ⟨claim_C9_fixed_frame.1 sampleBoot rfl rfl (by decide) rfl (by decide)
      (by decide) (by decide),
   claim_C9_fixed_frame.2 sampleBoot.serialize sampleBoot []
     (by simpa using BootSector.deserialize_serialize_boot sampleBoot (by decide) [])⟩

/-- Everything that holds of a BPB accepted by `validate`: the negation of
each hard-error condition, in source order. -/
lemma validate_ok_facts {bpb : BiosParameterBlock}
    (h : bpb.validate = Except.ok ()) :
    512 ≤ bpb.bytes_per_sector ∧
    bpb.bytes_per_sector ≤ 4096 ∧
    1 ≤ bpb.sectors_per_cluster ∧
    1 ≤ bpb.reserved_sectors ∧
    bpb.fats ≠ 0 ∧
    (bpb.is_fat32 = true → bpb.root_entries = 0) ∧
    (bpb.is_fat32 = true → bpb.total_sectors_16 = 0) ∧
    ¬((bpb.total_sectors_16 = 0) ↔ (bpb.total_sectors_32 = 0)) ∧
    (bpb.is_fat32 = true → bpb.sectors_per_fat_32 ≠ 0) ∧
    bpb.fs_version = 0 ∧
    bpb.first_data_sector < bpb.total_sectors ∧
    (bpb.is_fat32 = true ↔
      FatType.from_clusters bpb.total_clusters = FatType.Fat32) := by
  unfold BiosParameterBlock.validate at h
  by_cases h1 : countOnes16 bpb.bytes_per_sector ≠ 1
  · rw [if_pos h1] at h
    exact Except.noConfusion h
  rw [if_neg h1] at h
  by_cases h2 : bpb.bytes_per_sector < 512
  · rw [if_pos h2] at h
    exact Except.noConfusion h
  rw [if_neg h2] at h
  by_cases h3 : bpb.bytes_per_sector > 4096
  · rw [if_pos h3] at h
    exact Except.noConfusion h
  rw [if_neg h3] at h
  by_cases h4 : countOnes8 bpb.sectors_per_cluster ≠ 1
  · rw [if_pos h4] at h
    exact Except.noConfusion h
  rw [if_neg h4] at h
  by_cases h5 : bpb.sectors_per_cluster < 1
  · rw [if_pos h5] at h
    exact Except.noConfusion h
  rw [if_neg h5] at h
  by_cases h6 : bpb.sectors_per_cluster > 128
  · rw [if_pos h6] at h
    exact Except.noConfusion h
  rw [if_neg h6] at h
  by_cases h7 : bpb.reserved_sectors < 1
  · rw [if_pos h7] at h
    exact Except.noConfusion h
  rw [if_neg h7] at h
  by_cases h8 : bpb.fats = 0
  · rw [if_pos h8] at h
    exact Except.noConfusion h
  rw [if_neg h8] at h
  by_cases h9 : (bpb.is_fat32 && bpb.root_entries != 0) = true
  · rw [if_pos h9] at h
    exact Except.noConfusion h
  rw [if_neg h9] at h
  by_cases h10 : (bpb.is_fat32 && bpb.total_sectors_16 != 0) = true
  · rw [if_pos h10] at h
    exact Except.noConfusion h
  rw [if_neg h10] at h
  by_cases h11 : ((bpb.total_sectors_16 == 0) == (bpb.total_sectors_32 == 0)) = true
  · rw [if_pos h11] at h
    exact Except.noConfusion h
  rw [if_neg h11] at h
  by_cases h12 : (bpb.is_fat32 && bpb.sectors_per_fat_32 == 0) = true
  · rw [if_pos h12] at h
    exact Except.noConfusion h
  rw [if_neg h12] at h
  by_cases h13 : bpb.fs_version ≠ 0
  · rw [if_pos h13] at h
    exact Except.noConfusion h
  rw [if_neg h13] at h
  by_cases h14 : bpb.total_sectors ≤ bpb.first_data_sector
  · rw [if_pos h14] at h
    exact Except.noConfusion h
  rw [if_neg h14] at h
  by_cases h15 : (bpb.is_fat32 != (FatType.from_clusters bpb.total_clusters == FatType.Fat32)) = true
  · rw [if_pos h15] at h
    exact Except.noConfusion h
  rw [if_neg h15] at h
  simp only [Bool.and_eq_true, bne_iff_ne, beq_iff_eq, ne_eq, not_and,
    not_not, Decidable.not_not] at h9 h10 h11 h12 h15
  refine ⟨by omega, by omega, by omega, by omega, h8, ?_, ?_, ?_, ?_, ?_,
    by omega, ?_⟩
  · exact h9
  · exact h10
  · intro hiff
    have hx : (bpb.total_sectors_16 == 0) = (bpb.total_sectors_32 == 0) := by
      by_cases hz : bpb.total_sectors_16 = 0
      · have hz2 : bpb.total_sectors_32 = 0 := hiff.mp hz
        simp [hz, hz2]
      · have hz2 : ¬bpb.total_sectors_32 = 0 := fun hc => hz (hiff.mpr hc)
        simp [hz, hz2]
    exact h11 hx
  · exact h12
  · by_contra hv
    exact h13 hv
  · rw [h15, beq_iff_eq]

/-- **C2** — FAT-variant consistency gate: a BPB accepted by `validate`
has `is_fat32()` agreeing with the FAT type re-derived from the computed
cluster count (so any disagreement is rejected with a hard error), and a
`format_bpb` that returns successfully returns a BPB whose re-derived FAT
type is exactly the chosen `fat_type`. -/
theorem claim_C2_fat_variant_gate :
    (∀ bpb : BiosParameterBlock, bpb.validate = Except.ok () →
      (bpb.is_fat32 = true ↔
        FatType.from_clusters bpb.total_clusters = FatType.Fat32)) ∧
    (∀ (opts : FormatVolumeOptions) (bpb : BiosParameterBlock) (ft : FatType),
      format_bpb opts = Except.ok (bpb, ft) →
      FatType.from_clusters bpb.total_clusters = ft) := by
  constructor
  · intro bpb h
    exact (validate_ok_facts h).2.2.2.2.2.2.2.2.2.2.2
  · intro opts bpb ft h
    simp only [format_bpb] at h
    split at h
    · exact Except.noConfusion h
    · split at h
      · exact Except.noConfusion h
      · simp only [Except.ok.injEq, Prod.mk.injEq] at h
        obtain ⟨hb, hf⟩ := h
        subst hb
        subst hf
        next hne => exact Decidable.not_not.mp hne

/-- The exact BPB produced by `format_bpb sampleOpts` (16 MiB, 512-byte
sectors: FAT16, 2 sectors per cluster, 64 sectors per FAT). -/
def sampleFmtBpb : BiosParameterBlock :=
  { bytes_per_sector := 512, sectors_per_cluster := 2, reserved_sectors := 1,
    fats := 2, root_entries := 512, total_sectors_16 := 32768, media := 0xF8,
    sectors_per_fat_16 := 64, sectors_per_track := 32, heads := 64,
    hidden_sectors := 0, total_sectors_32 := 0, drive_num := 0x80,
    reserved_1 := 0, ext_sig := 0x29, volume_id := 0x12345678,
    volume_label := noNameLabel, fs_type_label := fsTypeLabel FatType.Fat16 }

example : format_bpb sampleOpts = Except.ok (sampleFmtBpb, FatType.Fat16) := by
  rfl

/-- Witness for C2: the validate conjunct at a concrete valid FAT16 BPB and
the format conjunct at the concrete 16 MiB format run. -/
theorem claim_C2_fat_variant_gate_witness :
    (sampleFat16Bpb.is_fat32 = true ↔
      FatType.from_clusters sampleFat16Bpb.total_clusters = FatType.Fat32) ∧
    FatType.from_clusters sampleFmtBpb.total_clusters = FatType.Fat16 :=
  ⟨claim_C2_fat_variant_gate.1 sampleFat16Bpb rfl,
   claim_C2_fat_variant_gate.2 sampleOpts sampleFmtBpb FatType.Fat16 rfl⟩

/-- **C5** — Structural total-sector constraints: `validate` hard-errors on
a FAT32 BPB with non-zero `root_entries`, on a FAT32 BPB with non-zero
`total_sectors_16`, and whenever `total_sectors_16` and `total_sectors_32`
are both zero or both non-zero; consequently an accepted BPB has exactly
one of the two total-sector fields non-zero, and zero `root_entries` and
`total_sectors_16` when FAT32. -/
theorem claim_C5_structural_totals (bpb : BiosParameterBlock) :
    (bpb.is_fat32 = true → bpb.root_entries ≠ 0 →
      bpb.validate ≠ Except.ok ()) ∧
    (bpb.is_fat32 = true → bpb.total_sectors_16 ≠ 0 →
      bpb.validate ≠ Except.ok ()) ∧
    (((bpb.total_sectors_16 = 0) ↔ (bpb.total_sectors_32 = 0)) →
      bpb.validate ≠ Except.ok ()) ∧
    (bpb.validate = Except.ok () →
      ((bpb.total_sectors_16 = 0 ∧ bpb.total_sectors_32 ≠ 0) ∨
       (bpb.total_sectors_16 ≠ 0 ∧ bpb.total_sectors_32 = 0)) ∧
      (bpb.is_fat32 = true →
        bpb.root_entries = 0 ∧ bpb.total_sectors_16 = 0)) := by
  refine ⟨?_, ?_, ?_, ?_⟩
  · intro hf hre hok
    exact hre ((validate_ok_facts hok).2.2.2.2.2.1 hf)
  · intro hf hts hok
    exact hts ((validate_ok_facts hok).2.2.2.2.2.2.1 hf)
  · intro hiff hok
    exact (validate_ok_facts hok).2.2.2.2.2.2.2.1 hiff
  · intro hok
    obtain ⟨-, -, -, -, -, hre, hts, hxor, -⟩ := validate_ok_facts hok
    refine ⟨?_, fun hf => ⟨hre hf, hts hf⟩⟩
    by_cases h16 : bpb.total_sectors_16 = 0
    · left
      refine ⟨h16, fun h32 => hxor ⟨fun _ => h32, fun _ => h16⟩⟩
    · right
      refine ⟨h16, ?_⟩
      by_contra h32
      exact hxor ⟨fun hc => absurd hc h16, fun hc => absurd hc h32⟩

/-- Witness for C5: the error conjunct at a FAT32 BPB carrying a non-zero
`root_entries`, and the acceptance conjunct at a concrete valid FAT32
BPB. -/
theorem claim_C5_structural_totals_witness :
    ({ sampleFat32Bpb with root_entries := 5 } :
      BiosParameterBlock).validate ≠ Except.ok () ∧
    (sampleFat32Bpb.root_entries = 0 ∧ sampleFat32Bpb.total_sectors_16 = 0) :=
  ⟨(claim_C5_structural_totals _).1 (by decide) (by decide),
   ((claim_C5_structural_totals sampleFat32Bpb).2.2.2 rfl).2 (by decide)⟩

/-- **C3** — `determine_fat_type` thresholds: below 4 MiB is FAT12, from
4 MiB up to (excluding) 512 MiB is FAT16, from 512 MiB on is FAT32; in
particular 3 MiB ↦ Fat12, 4 MiB and 511 MiB ↦ Fat16, 512 MiB ↦ Fat32. -/
theorem claim_C3_fat_type_thresholds :
    (∀ total_bytes : Nat, total_bytes < 2 ^ 64 →
      (total_bytes < 4 * MB → determine_fat_type total_bytes = FatType.Fat12) ∧
      (4 * MB ≤ total_bytes → total_bytes < 512 * MB →
        determine_fat_type total_bytes = FatType.Fat16) ∧
      (512 * MB ≤ total_bytes →
        determine_fat_type total_bytes = FatType.Fat32)) ∧
    determine_fat_type (3 * MB) = FatType.Fat12 ∧
    determine_fat_type (4 * MB) = FatType.Fat16 ∧
    determine_fat_type (511 * MB) = FatType.Fat16 ∧
    determine_fat_type (512 * MB) = FatType.Fat32 := by
  refine ⟨?_, by decide, by decide, by decide, by decide⟩
  intro total_bytes _
  refine ⟨fun h1 => ?_, fun h2 h3 => ?_, fun h4 => ?_⟩
  · simp [determine_fat_type, h1]
  · simp only [determine_fat_type]
    rw [if_neg (by omega), if_pos h3]
  · simp only [determine_fat_type]
    rw [if_neg (by omega), if_neg (by omega)]

/-- Witness for C3 at 3 MiB. -/
theorem claim_C3_fat_type_thresholds_witness :
    determine_fat_type (3 * MB) = FatType.Fat12 :=
  (claim_C3_fat_type_thresholds.1 (3 * MB) (by norm_num [MB, KB])).1
    (by norm_num [MB, KB])

/-- `format_boot_sector` fails with exactly the errors of `format_bpb`. -/
lemma format_boot_sector_error_iff (options : FormatVolumeOptions)
    (e : String) :
    format_boot_sector options = Except.error e ↔
      format_bpb options = Except.error e := by
  unfold format_boot_sector
  cases hfb : format_bpb options with
  | error e2 => simp [Except.map]
  | ok p => simp [Except.map]

/-- **C4** — Format-time volume-too-small rejection: `format_bpb` (and
hence `format_boot_sector`) fails with the "Volume is too small" error
exactly when `total_sectors ≤ reserved_sectors + root_dir_sectors + 8`,
with `reserved_sectors = 4` for a chosen FAT32 type and `1` otherwise, and
`root_dir_sectors` the ceiling of `root_entries × DIR_ENTRY_SIZE` over
`bytes_per_sector` (root entries forced to 0 for FAT32, defaulting to
512 otherwise).  The hypothesis `0 < bytes_per_sector` marks the boundary
at which the Rust source would panic (division by zero in the
root-directory sizing) instead of returning any error. -/
theorem claim_C4_volume_too_small (opts : FormatVolumeOptions)
    (hbps : 0 < opts.bytes_per_sector) :
    (format_bpb opts = Except.error "Volume is too small" ↔
      opts.total_sectors ≤
        (if formatFatType opts = FatType.Fat32 then 4 else 1) +
        ((if formatFatType opts = FatType.Fat32 then 0
          else opts.root_entries.getD 512) * DIR_ENTRY_SIZE +
          opts.bytes_per_sector - 1) / opts.bytes_per_sector + 8) ∧
    (format_boot_sector opts = Except.error "Volume is too small" ↔
      opts.total_sectors ≤
        (if formatFatType opts = FatType.Fat32 then 4 else 1) +
        ((if formatFatType opts = FatType.Fat32 then 0
          else opts.root_entries.getD 512) * DIR_ENTRY_SIZE +
          opts.bytes_per_sector - 1) / opts.bytes_per_sector + 8) := by
  have hmain : format_bpb opts = Except.error "Volume is too small" ↔
      opts.total_sectors ≤
        (if formatFatType opts = FatType.Fat32 then 4 else 1) +
        ((if formatFatType opts = FatType.Fat32 then 0
          else opts.root_entries.getD 512) * DIR_ENTRY_SIZE +
          opts.bytes_per_sector - 1) / opts.bytes_per_sector + 8 := by
    unfold format_bpb
    by_cases hc : opts.total_sectors ≤
        formatReservedSectors opts + formatRootDirSectors opts + 8
    · rw [if_pos hc]
      exact iff_of_true rfl (by
        simpa [formatReservedSectors, formatRootDirSectors,
          formatRootEntries] using hc)
    · rw [if_neg hc]
      refine iff_of_false ?_ (by
        simpa [formatReservedSectors, formatRootDirSectors,
          formatRootEntries] using hc)
      split
      · intro h
        simp only [Except.error.injEq] at h
        exact absurd h (by decide)
      · exact fun h => Except.noConfusion h
  exact ⟨hmain, (format_boot_sector_error_iff opts _).trans hmain⟩

/-- Witness for C4 at the concrete 16 MiB options (large enough, so both
sides of each equivalence are false). -/
theorem claim_C4_volume_too_small_witness :
    format_bpb sampleOpts = Except.error "Volume is too small" ↔
      sampleOpts.total_sectors ≤
        (if formatFatType sampleOpts = FatType.Fat32 then 4 else 1) +
        ((if formatFatType sampleOpts = FatType.Fat32 then 0
          else sampleOpts.root_entries.getD 512) * DIR_ENTRY_SIZE +
          sampleOpts.bytes_per_sector - 1) / sampleOpts.bytes_per_sector + 8 :=
  (claim_C4_volume_too_small sampleOpts (by decide)).1

/-! ### Power-of-two facts for `determine_bytes_per_cluster` -/

/-- `PowOrZero x`: `x` is zero or a power of two — the shape every
pre-clamp branch value of `determine_bytes_per_cluster` has. -/
def PowOrZero (x : Nat) : Prop := x = 0 ∨ ∃ i, x = 2 ^ i

lemma npotGo_pow (n : Nat) : ∀ (fuel p : Nat), (∃ i, p = 2 ^ i) →
    ∃ j, npotGo n fuel p = 2 ^ j := by
  intro fuel
  induction fuel with
  | zero => exact fun p h => h
  | succ f ih =>
    intro p h
    obtain ⟨i, rfl⟩ := h
    unfold npotGo
    split
    · exact ih (2 ^ i * 2) ⟨i + 1, by rw [pow_succ]⟩
    · exact ⟨i, rfl⟩

lemma powOrZero_mod_pow {x : Nat} (m : Nat) (h : PowOrZero x) :
    PowOrZero (x % 2 ^ m) := by
  obtain rfl | ⟨i, rfl⟩ := h
  · left
    simp
  · by_cases hi : i < m
    · right
      exact ⟨i, Nat.mod_eq_of_lt (Nat.pow_lt_pow_right one_lt_two hi)⟩
    · left
      have hd : 2 ^ m ∣ 2 ^ i := pow_dvd_pow 2 (by omega)
      exact Nat.mod_eq_zero_of_dvd hd

lemma u64NextPowerOfTwo_pow (n : Nat) : PowOrZero (u64NextPowerOfTwo n) := by
  unfold u64NextPowerOfTwo
  obtain ⟨j, hj⟩ := npotGo_pow n 64 1 ⟨0, rfl⟩
  rw [hj]
  exact powOrZero_mod_pow 64 (Or.inr ⟨j, rfl⟩)

lemma powOrZero_div_pow {x : Nat} (m : Nat) (h : PowOrZero x) :
    PowOrZero (x / 2 ^ m) := by
  obtain rfl | ⟨i, rfl⟩ := h
  · left
    simp
  · by_cases hi : m ≤ i
    · right
      exact ⟨i - m, Nat.pow_div hi two_pos⟩
    · left
      exact Nat.div_eq_of_lt (Nat.pow_lt_pow_right one_lt_two (by omega))

lemma powOrZero_mul_pow {x : Nat} (b : Nat) (h : PowOrZero x) :
    PowOrZero (x * 2 ^ b) := by
  obtain rfl | ⟨i, rfl⟩ := h
  · left
    simp
  · right
    exact ⟨i + b, (pow_add 2 i b).symm⟩

/-- The open-bracket branches of `determine_bytes_per_cluster` all have
the shape `next_power_of_two / 2 ^ a * 2 ^ b % 2 ^ 32`, which is zero or a
power of two. -/
lemma powOrZero_shape (tb a b : Nat) :
    PowOrZero (u64NextPowerOfTwo tb / 2 ^ a * 2 ^ b % 2 ^ 32) :=
  powOrZero_mod_pow 32
    (powOrZero_mul_pow b (powOrZero_div_pow a (u64NextPowerOfTwo_pow tb)))

/-- Clamping a zero-or-power-of-two into `[2 ^ k, 32 KiB]` (with
`9 ≤ k ≤ 12`) always yields a power of two inside the range. -/
lemma clamp_facts {v k : Nat} (hP : PowOrZero v) (hk9 : 9 ≤ k)
    (hk12 : k ≤ 12) :
    (∃ j, min (max v (2 ^ k)) (32 * KB) = 2 ^ j) ∧
    2 ^ k ≤ min (max v (2 ^ k)) (32 * KB) ∧
    min (max v (2 ^ k)) (32 * KB) ≤ 32 * KB := by
  have h32 : (32 * KB : Nat) = 2 ^ 15 := by norm_num [KB]
  have hk15 : (2 : Nat) ^ k ≤ 2 ^ 15 :=
    Nat.pow_le_pow_right (by norm_num) (by omega)
  refine ⟨?_, ?_, Nat.min_le_right _ _⟩
  · obtain rfl | ⟨i, rfl⟩ := hP
    · refine ⟨k, ?_⟩
      rw [Nat.zero_max, Nat.min_eq_left (by omega)]
    · rcases max_choice (2 ^ i) (2 ^ k) with hmax | hmax <;> rw [hmax]
      all_goals rcases min_choice _ (32 * KB) with hmin | hmin
      all_goals rw [hmin]
      · exact ⟨i, rfl⟩
      · exact ⟨15, h32⟩
      · exact ⟨k, rfl⟩
      · exact ⟨15, h32⟩
  · refine Nat.le_min.mpr ⟨Nat.le_max_right _ _, by omega⟩

/-- **C6** — `determine_bytes_per_cluster`: for every 64-bit byte count,
FAT variant and power-of-two sector size in `[512, 4096]`, the result is a
power of two in the clamped range `[bytes_per_sector, 32 KiB]`; plus the
four concrete evaluations of the claim. -/
theorem claim_C6_bytes_per_cluster :
    (∀ (total_bytes : Nat) (fat_type : FatType) (bps : Nat),
      total_bytes < 2 ^ 64 →
      (∃ k, 9 ≤ k ∧ k ≤ 12 ∧ bps = 2 ^ k) →
      (∃ j, determine_bytes_per_cluster total_bytes fat_type bps = 2 ^ j) ∧
      bps ≤ determine_bytes_per_cluster total_bytes fat_type bps ∧
      determine_bytes_per_cluster total_bytes fat_type bps ≤ 32 * KB) ∧
    determine_bytes_per_cluster (16 * MB) FatType.Fat16 512 = 1 * KB ∧
    determine_bytes_per_cluster (16 * MB + 1) FatType.Fat16 512 = 2 * KB ∧
    determine_bytes_per_cluster (99999 * MB) FatType.Fat16 512 = 32 * KB ∧
    determine_bytes_per_cluster (1 * MB) FatType.Fat12 4096 = 4096 := by
  refine ⟨?_, by decide, by decide, by decide, by decide⟩
  rintro tb ft bps h64 ⟨k, hk9, hk12, rfl⟩
  have hMB : MB = 2 ^ 20 := by norm_num [MB, KB]
  have hKB : KB = 2 ^ 10 := by norm_num [KB]
  cases ft with
  | Fat12 =>
    unfold determine_bytes_per_cluster
    have hv : PowOrZero (u64NextPowerOfTwo tb / MB * 512 % 2 ^ 32) := by
      rw [hMB, show (512 : Nat) = 2 ^ 9 by norm_num]
      exact powOrZero_shape tb 20 9
    exact clamp_facts hv hk9 hk12
  | Fat16 =>
    unfold determine_bytes_per_cluster
    by_cases q1 : tb ≤ 16 * MB
    · rw [if_pos q1]
      exact clamp_facts (Or.inr ⟨10, by norm_num [KB]⟩) hk9 hk12
    · rw [if_neg q1]
      by_cases q2 : tb ≤ 128 * MB
      · rw [if_pos q2]
        exact clamp_facts (Or.inr ⟨11, by norm_num [KB]⟩) hk9 hk12
      · rw [if_neg q2]
        have hv : PowOrZero (u64NextPowerOfTwo tb / (64 * MB) * KB % 2 ^ 32) := by
          rw [hKB, show (64 * MB : Nat) = 2 ^ 26 by norm_num [MB, KB]]
          exact powOrZero_shape tb 26 10
        exact clamp_facts hv hk9 hk12
  | Fat32 =>
    unfold determine_bytes_per_cluster
    by_cases q1 : tb ≤ 260 * MB
    · rw [if_pos q1]
      exact clamp_facts (Or.inr ⟨9, by norm_num⟩) hk9 hk12
    · rw [if_neg q1]
      by_cases q2 : tb ≤ 8 * GB
      · rw [if_pos q2]
        exact clamp_facts (Or.inr ⟨12, by norm_num [KB]⟩) hk9 hk12
      · rw [if_neg q2]
        have hv : PowOrZero (u64NextPowerOfTwo tb / (2 * GB) * KB % 2 ^ 32) := by
          rw [hKB, show (2 * GB : Nat) = 2 ^ 31 by norm_num [GB, MB, KB]]
          exact powOrZero_shape tb 31 10
        exact clamp_facts hv hk9 hk12

/-- Witness for C6 at (16 MiB, Fat16, 512). -/
theorem claim_C6_bytes_per_cluster_witness :
    (∃ j, determine_bytes_per_cluster (16 * MB) FatType.Fat16 512 = 2 ^ j) ∧
    512 ≤ determine_bytes_per_cluster (16 * MB) FatType.Fat16 512 ∧
    determine_bytes_per_cluster (16 * MB) FatType.Fat16 512 ≤ 32 * KB :=
  claim_C6_bytes_per_cluster.1 (16 * MB) FatType.Fat16 512
    (by norm_num [MB, KB]) ⟨9, by norm_num, by norm_num, by norm_num⟩

/-- `(a + b - 1) / b` is the least `q` with `a ≤ b * q`: the mathematical
ceiling of `a / b`. -/
lemma ceilDiv_least (a b : Nat) (hb : 0 < b) :
    a ≤ b * ((a + b - 1) / b) ∧
    ∀ m, a ≤ b * m → (a + b - 1) / b ≤ m := by
  constructor
  · have h1 := Nat.div_add_mod (a + b - 1) b
    have h2 : (a + b - 1) % b < b := Nat.mod_lt _ hb
    generalize hx : b * ((a + b - 1) / b) = x at h1 ⊢
    omega
  · intro m hm
    have h3 : a + b - 1 ≤ b - 1 + b * m := by
      generalize hy : b * m = y at hm ⊢
      omega
    have h4 : (a + b - 1) / b ≤ (b - 1 + b * m) / b := Nat.div_le_div_right h3
    rwa [Nat.add_mul_div_left _ _ hb,
      Nat.div_eq_of_lt (show b - 1 < b by omega), Nat.zero_add] at h4

/-- **C7 (amended)** — `determine_sectors_per_fat` formula: with machine-
width inputs, `total_sectors ≥ reserved_sectors + root_dir_sectors`, a
positive adjusted divisor `tmp2` (a zero divisor would make the Rust
source panic), and `tmp1 + tmp2 ≤ 2 ^ 32` (otherwise the u32 numerator
`tmp1 + (tmp2 - 1)` wraps and the result is not the ceiling — see the
counterexample), the function returns the mathematical ceiling of
`tmp1 / tmp2`, stated as the least `q` with `tmp1 ≤ tmp2 * q`; in
particular `determine_sectors_per_fat 2048 1 2 32 1 Fat12 = 6`. -/
theorem claim_C7_sectors_per_fat_formula :
    (∀ (total_sectors reserved_sectors fats root_dir_sectors
        sectors_per_cluster : Nat) (fat_type : FatType) (tmp2 : Nat),
      total_sectors < 2 ^ 32 → reserved_sectors < 2 ^ 16 →
      fats < 2 ^ 8 → root_dir_sectors < 2 ^ 32 →
      sectors_per_cluster < 2 ^ 8 →
      reserved_sectors + root_dir_sectors ≤ total_sectors →
      tmp2 = (if fat_type = FatType.Fat32 then
          (256 * sectors_per_cluster + fats) / 2
        else if fat_type = FatType.Fat12 then
          (256 * sectors_per_cluster + fats) / 3 * 4
        else 256 * sectors_per_cluster + fats) →
      0 < tmp2 →
      total_sectors - (reserved_sectors + root_dir_sectors) + tmp2 ≤ 2 ^ 32 →
      total_sectors - (reserved_sectors + root_dir_sectors) ≤
        tmp2 * determine_sectors_per_fat total_sectors reserved_sectors fats
          root_dir_sectors sectors_per_cluster fat_type ∧
      ∀ m, total_sectors - (reserved_sectors + root_dir_sectors) ≤ tmp2 * m →
        determine_sectors_per_fat total_sectors reserved_sectors fats
          root_dir_sectors sectors_per_cluster fat_type ≤ m) ∧
    determine_sectors_per_fat 2048 1 2 32 1 FatType.Fat12 = 6 := by
  refine ⟨?_, by decide⟩
  intro ts rsv fats rds spc ft tmp2 hts hrsv hfats hrds hspc hge htmp2 hpos hnof
  have htmp2b : tmp2 < 2 ^ 32 := by
    rw [htmp2]
    split_ifs <;> omega
  have hdef : determine_sectors_per_fat ts rsv fats rds spc ft =
      (ts - (rsv + rds) + tmp2 - 1) / tmp2 := by
    simp only [determine_sectors_per_fat]
    rw [← htmp2]
    have hnum : ((ts + 2 ^ 32 - (rsv + rds) % 2 ^ 32) % 2 ^ 32 +
        (tmp2 + 2 ^ 32 - 1) % 2 ^ 32) % 2 ^ 32 =
        ts - (rsv + rds) + tmp2 - 1 := by omega
    rw [hnum]
  rw [hdef]
  exact ceilDiv_least (ts - (rsv + rds)) tmp2 hpos

/-- C7 counterexample: at `total_sectors = 2 ^ 32 - 1`,
`reserved_sectors = 0`, `fats = 1`, `root_dir_sectors = 0`,
`sectors_per_cluster = 255`, `Fat16` (all machine-width inputs with
`total_sectors ≥ reserved + root_dir`), the u32 numerator wraps and the
function returns `0`, while the ceiling of `tmp1 / tmp2` demanded by the
claim is `65792`. -/
theorem claim_C7_counterexample :
    determine_sectors_per_fat (2 ^ 32 - 1) 0 1 0 255 FatType.Fat16 = 0 ∧
    (2 ^ 32 - 1 - (0 + 0) + (256 * 255 + 1) - 1) / (256 * 255 + 1) = 65792 := by
  constructor
  · decide
  · decide

/-- Witness for the amended C7 at the concrete FAT12 instance of the
source's own test. -/
theorem claim_C7_sectors_per_fat_formula_witness :
    2048 - (1 + 32) ≤
      344 * determine_sectors_per_fat 2048 1 2 32 1 FatType.Fat12 ∧
    ∀ m, 2048 - (1 + 32) ≤ 344 * m →
      determine_sectors_per_fat 2048 1 2 32 1 FatType.Fat12 ≤ m :=
  claim_C7_sectors_per_fat_formula.1 2048 1 2 32 1 FatType.Fat12 344
    (by norm_num) (by norm_num) (by norm_num) (by norm_num) (by norm_num)
    (by norm_num) (by decide) (by norm_num) (by norm_num)

/-- When the ceiling fits in u32 the i64 dance of `clusters_from_bytes`
computes exactly the Nat ceiling numerator and division. -/
lemma clusters_from_bytes_eq {bpb : BiosParameterBlock} {bytes : Nat}
    (hcs0 : 0 < bpb.cluster_size)
    (hsmall : bytes + bpb.cluster_size - 1 < 2 ^ 56)
    (hfit : (bytes + bpb.cluster_size - 1) / bpb.cluster_size < 2 ^ 32) :
    bpb.clusters_from_bytes bytes =
      (bytes + bpb.cluster_size - 1) / bpb.cluster_size := by
  unfold BiosParameterBlock.clusters_from_bytes u32OfI64 wrapI64 i64OfU64
  rw [if_pos (show bytes < 2 ^ 63 by omega)]
  have h1 : ((bytes : Int) + (bpb.cluster_size : Int) - 1 + 2 ^ 63) % 2 ^ 64 -
      2 ^ 63 = ((bytes + bpb.cluster_size - 1 : Nat) : Int) := by
    omega
  rw [h1]
  have h2 : ((bytes + bpb.cluster_size - 1 : Nat) : Int).tdiv
      (bpb.cluster_size : Int) =
      (((bytes + bpb.cluster_size - 1) / bpb.cluster_size : Nat) : Int) := by
    exact (Int.ofNat_tdiv _ _).symm
  rw [h2]
  have h3 : ((((bytes + bpb.cluster_size - 1) / bpb.cluster_size : Nat) : Int))
      % 2 ^ 32 =
      (((bytes + bpb.cluster_size - 1) / bpb.cluster_size : Nat) : Int) :=
    Int.emod_eq_of_lt (by positivity) (by exact_mod_cast hfit)
  rw [h3]
  exact Int.toNat_natCast _

/-- **C8 (amended)** — `clusters_from_bytes` is exact ceiling division on
the representable range: for every BPB with machine-width geometry fields
and non-zero `cluster_size()`, and every 64-bit `bytes` whose ceiling
quotient fits in u32, the result is the mathematical ceiling of
`bytes / cluster_size()` (stated as the least `c` with
`bytes ≤ cluster_size * c`).  The u32 fit is forced by the counterexample:
the final `as u32` cast truncates larger quotients. -/
theorem claim_C8_clusters_from_bytes
    (bpb : BiosParameterBlock) (bytes : Nat)
    (hspc : bpb.sectors_per_cluster < 2 ^ 8)
    (hbps : bpb.bytes_per_sector < 2 ^ 16)
    (hcs : bpb.cluster_size ≠ 0) (hb : bytes < 2 ^ 64)
    (hfit : (bytes + bpb.cluster_size - 1) / bpb.cluster_size < 2 ^ 32) :
    bytes ≤ bpb.cluster_size * bpb.clusters_from_bytes bytes ∧
    ∀ m, bytes ≤ bpb.cluster_size * m → bpb.clusters_from_bytes bytes ≤ m := by
  have hcs0 : 0 < bpb.cluster_size := Nat.pos_of_ne_zero hcs
  have hcs24 : bpb.cluster_size < 2 ^ 24 := by
    have h := Nat.mul_le_mul (Nat.le_pred_of_lt hspc) (Nat.le_pred_of_lt hbps)
    unfold BiosParameterBlock.cluster_size
    calc bpb.sectors_per_cluster * bpb.bytes_per_sector
        ≤ (2 ^ 8 - 1) * (2 ^ 16 - 1) := h
      _ < 2 ^ 24 := by norm_num
  have h5 : bytes + bpb.cluster_size - 1 < 2 ^ 32 * bpb.cluster_size :=
    (Nat.div_lt_iff_lt_mul hcs0).mp hfit
  have hsmall : bytes + bpb.cluster_size - 1 < 2 ^ 56 := by omega
  rw [clusters_from_bytes_eq hcs0 hsmall hfit]
  exact ceilDiv_least bytes bpb.cluster_size hcs0

/-- C8 counterexample: with a 512-byte cluster size and `bytes = 2 ^ 50`
(a perfectly valid u64 byte count), the true ceiling is `2 ^ 41`, but the
`as u32` cast truncates it to `0` — which is not the ceiling, as the
result times the cluster size falls short of `bytes`. -/
theorem claim_C8_counterexample :
    sampleFat16Bpb.clusters_from_bytes (2 ^ 50) = 0 ∧
    ¬(2 ^ 50 ≤ sampleFat16Bpb.cluster_size *
        sampleFat16Bpb.clusters_from_bytes (2 ^ 50)) := by
  constructor
  · decide
  · decide

/-- Witness for the amended C8 at a concrete in-range input
(1000 bytes over 512-byte clusters: ceiling 2). -/
theorem claim_C8_clusters_from_bytes_witness :
    1000 ≤ sampleFat16Bpb.cluster_size *
      sampleFat16Bpb.clusters_from_bytes 1000 ∧
    ∀ m, 1000 ≤ sampleFat16Bpb.cluster_size * m →
      sampleFat16Bpb.clusters_from_bytes 1000 ≤ m :=
  claim_C8_clusters_from_bytes sampleFat16Bpb 1000 (by decide) (by decide)
    (by decide) (by norm_num) (by decide)

/-- C10 counterexample: `overflowFat32Bpb` passes every hard-error check
of `validate` (it validates successfully), yet its
`sectors_per_fat() * bytes_per_sector * 8` product is `2 ^ 35`, which
overflows the u32 arithmetic of the undersized-FAT warning check. -/
theorem claim_C10_counterexample :
    overflowFat32Bpb.validate = Except.ok () ∧
    2 ^ 32 ≤ overflowFat32Bpb.sectors_per_fat *
      overflowFat32Bpb.bytes_per_sector * 8 := by
  constructor
  · rfl
  · decide

/-- **C10 (amended)** — arithmetic of the undersized-FAT warning check:
for every BPB passing all preceding hard-error checks (i.e. accepted by
`validate`) in which the product `sectors_per_fat() × bytes_per_sector × 8`
additionally fits in u32 (the bound the counterexample shows cannot be
dropped), the subtraction `total_fat_entries − RESERVED_FAT_ENTRIES` does
not underflow: the entry count is at least 128, above the 2 reserved
entries. -/
theorem claim_C10_fat_entries_arith (bpb : BiosParameterBlock)
    (hok : bpb.validate = Except.ok ())
    (hnof : bpb.sectors_per_fat * bpb.bytes_per_sector * 8 < 2 ^ 32) :
    RESERVED_FAT_ENTRIES ≤
      bpb.sectors_per_fat * bpb.bytes_per_sector * 8 /
        (FatType.from_clusters bpb.total_clusters).bits_per_fat_entry := by
  obtain ⟨hbps, -, -, -, -, -, -, -, hspf32, -, -, -⟩ := validate_ok_facts hok
  have hspf : 1 ≤ bpb.sectors_per_fat := by
    unfold BiosParameterBlock.sectors_per_fat
    by_cases hf : bpb.is_fat32
    · rw [if_pos hf]
      exact Nat.one_le_iff_ne_zero.mpr (hspf32 hf)
    · rw [if_neg hf]
      have hne : bpb.sectors_per_fat_16 ≠ 0 := by
        intro h0
        exact hf (by simp [BiosParameterBlock.is_fat32, h0])
      omega
  have hprod : 4096 ≤ bpb.sectors_per_fat * bpb.bytes_per_sector * 8 := by
    have h1 : 1 * 512 ≤ bpb.sectors_per_fat * bpb.bytes_per_sector :=
      Nat.mul_le_mul hspf hbps
    omega
  set bits := (FatType.from_clusters bpb.total_clusters).bits_per_fat_entry
    with hbits
  have hb32 : bits ≤ 32 ∧ 0 < bits := by
    rw [hbits]
    cases FatType.from_clusters bpb.total_clusters <;>
      simp [FatType.bits_per_fat_entry]
  calc RESERVED_FAT_ENTRIES ≤ 4096 / 32 := by norm_num [RESERVED_FAT_ENTRIES]
    _ ≤ bpb.sectors_per_fat * bpb.bytes_per_sector * 8 / 32 :=
        Nat.div_le_div_right hprod
    _ ≤ bpb.sectors_per_fat * bpb.bytes_per_sector * 8 / bits :=
        Nat.div_le_div_left hb32.1 hb32.2

/-- Witness for the amended C10 at a concrete valid FAT32 BPB whose
product stays inside u32. -/
theorem claim_C10_fat_entries_arith_witness :
    RESERVED_FAT_ENTRIES ≤
      sampleFat32Bpb.sectors_per_fat * sampleFat32Bpb.bytes_per_sector * 8 /
        (FatType.from_clusters sampleFat32Bpb.total_clusters).bits_per_fat_entry :=
  claim_C10_fat_entries_arith sampleFat32Bpb rfl (by decide)

/-! ### Every successfully deserialized value is well formed -/

lemma r8_spec {s : List Nat} {v : Nat} {r : List Nat}
    (hall : ∀ x ∈ s, x < 2 ^ 8) (h : r8 s = some (v, r)) :
    v < 2 ^ 8 ∧ ∀ x ∈ r, x < 2 ^ 8 := by
  cases s with
  | nil => simp [r8] at h
  | cons a t =>
    simp [r8] at h
    obtain ⟨rfl, rfl⟩ := h
    exact ⟨hall a (by simp), fun x hx => hall x (by simp [hx])⟩

lemma r16_spec {s : List Nat} {v : Nat} {r : List Nat}
    (hall : ∀ x ∈ s, x < 2 ^ 8) (h : r16 s = some (v, r)) :
    v < 2 ^ 16 ∧ ∀ x ∈ r, x < 2 ^ 8 := by
  match s with
  | [] => simp [r16] at h
  | [a] => simp [r16] at h
  | a :: b :: t =>
    simp [r16] at h
    obtain ⟨rfl, rfl⟩ := h
    have ha := hall a (by simp)
    have hb := hall b (by simp)
    exact ⟨by omega, fun x hx => hall x (by simp [hx])⟩

lemma r32_spec {s : List Nat} {v : Nat} {r : List Nat}
    (hall : ∀ x ∈ s, x < 2 ^ 8) (h : r32 s = some (v, r)) :
    v < 2 ^ 32 ∧ ∀ x ∈ r, x < 2 ^ 8 := by
  match s with
  | [] => simp [r32] at h
  | [a] => simp [r32] at h
  | [a, b] => simp [r32] at h
  | [a, b, c] => simp [r32] at h
  | a :: b :: c :: d :: t =>
    simp [r32] at h
    obtain ⟨rfl, rfl⟩ := h
    have ha := hall a (by simp)
    have hb := hall b (by simp)
    have hc := hall c (by simp)
    have hd := hall d (by simp)
    exact ⟨by omega, fun x hx => hall x (by simp [hx])⟩

lemma readExact_spec {n : Nat} {s l r : List Nat}
    (hall : ∀ x ∈ s, x < 2 ^ 8) (h : readExact n s = some (l, r)) :
    l.length = n ∧ (∀ x ∈ l, x < 2 ^ 8) ∧ ∀ x ∈ r, x < 2 ^ 8 := by
  unfold readExact at h
  split at h
  · simp only [Option.some.injEq, Prod.mk.injEq] at h
    obtain ⟨rfl, rfl⟩ := h
    refine ⟨by simp; omega, ?_, ?_⟩
    · exact fun x hx => hall x (List.take_subset n s hx)
    · exact fun x hx => hall x (List.drop_subset n s hx)
  · simp at h

/-- Shape of a successful FAT32 extended-tail read: the common fields are
kept, the tail fields are fresh machine-width values. -/
lemma readExtTail_shape {bpb0 : BiosParameterBlock} {s : List Nat}
    {bpb2 : BiosParameterBlock} {r : List Nat}
    (hall : ∀ x ∈ s, x < 2 ^ 8)
    (h : bpb0.readExtTail s = some (bpb2, r)) :
    ∃ spf32 ef fsv rdfc fis bbs res0 dn r1 es vid vl ftl,
      spf32 < 2 ^ 32 ∧ ef < 2 ^ 16 ∧ fsv < 2 ^ 16 ∧ rdfc < 2 ^ 32 ∧
      fis < 2 ^ 16 ∧ bbs < 2 ^ 16 ∧
      res0.length = 12 ∧ (∀ x ∈ res0, x < 2 ^ 8) ∧
      dn < 2 ^ 8 ∧ r1 < 2 ^ 8 ∧ es < 2 ^ 8 ∧ vid < 2 ^ 32 ∧
      vl.length = 11 ∧ (∀ x ∈ vl, x < 2 ^ 8) ∧
      ftl.length = 8 ∧ (∀ x ∈ ftl, x < 2 ^ 8) ∧
      bpb2 = { bpb0 with
               sectors_per_fat_32 := spf32, extended_flags := ef,
               fs_version := fsv, root_dir_first_cluster := rdfc,
               fs_info_sector := fis, backup_boot_sector := bbs,
               reserved_0 := res0, drive_num := dn, reserved_1 := r1,
               ext_sig := es, volume_id := vid, volume_label := vl,
               fs_type_label := ftl } ∧
      (∀ x ∈ r, x < 2 ^ 8) := by
  unfold BiosParameterBlock.readExtTail at h
  cases hx1 : r32 s with
  | none => simp [hx1] at h
  | some p1 =>
  obtain ⟨v1, s1⟩ := p1
  simp only [hx1] at h
  obtain ⟨hb1, hall1⟩ := r32_spec hall hx1

  cases hx2 : r16 s1 with
  | none => simp [hx2] at h
  | some p2 =>
  obtain ⟨v2, s2⟩ := p2
  simp only [hx2] at h
  obtain ⟨hb2, hall2⟩ := r16_spec hall1 hx2

  cases hx3 : r16 s2 with
  | none => simp [hx3] at h
  | some p3 =>
  obtain ⟨v3, s3⟩ := p3
  simp only [hx3] at h
  obtain ⟨hb3, hall3⟩ := r16_spec hall2 hx3

  cases hx4 : r32 s3 with
  | none => simp [hx4] at h
  | some p4 =>
  obtain ⟨v4, s4⟩ := p4
  simp only [hx4] at h
  obtain ⟨hb4, hall4⟩ := r32_spec hall3 hx4

  cases hx5 : r16 s4 with
  | none => simp [hx5] at h
  | some p5 =>
  obtain ⟨v5, s5⟩ := p5
  simp only [hx5] at h
  obtain ⟨hb5, hall5⟩ := r16_spec hall4 hx5

  cases hx6 : r16 s5 with
  | none => simp [hx6] at h
  | some p6 =>
  obtain ⟨v6, s6⟩ := p6
  simp only [hx6] at h
  obtain ⟨hb6, hall6⟩ := r16_spec hall5 hx6

  cases hx7 : readExact 12 s6 with
  | none => simp [hx7] at h
  | some p7 =>
  obtain ⟨v7, s7⟩ := p7
  simp only [hx7] at h
  obtain ⟨hl7, he7, hall7⟩ := readExact_spec hall6 hx7

  cases hx8 : r8 s7 with
  | none => simp [hx8] at h
  | some p8 =>
  obtain ⟨v8, s8⟩ := p8
  simp only [hx8] at h
  obtain ⟨hb8, hall8⟩ := r8_spec hall7 hx8

  cases hx9 : r8 s8 with
  | none => simp [hx9] at h
  | some p9 =>
  obtain ⟨v9, s9⟩ := p9
  simp only [hx9] at h
  obtain ⟨hb9, hall9⟩ := r8_spec hall8 hx9

  cases hx10 : r8 s9 with
  | none => simp [hx10] at h
  | some p10 =>
  obtain ⟨v10, s10⟩ := p10
  simp only [hx10] at h
  obtain ⟨hb10, hall10⟩ := r8_spec hall9 hx10

  cases hx11 : r32 s10 with
  | none => simp [hx11] at h
  | some p11 =>
  obtain ⟨v11, s11⟩ := p11
  simp only [hx11] at h
  obtain ⟨hb11, hall11⟩ := r32_spec hall10 hx11

  cases hx12 : readExact 11 s11 with
  | none => simp [hx12] at h
  | some p12 =>
  obtain ⟨v12, s12⟩ := p12
  simp only [hx12] at h
  obtain ⟨hl12, he12, hall12⟩ := readExact_spec hall11 hx12

  cases hx13 : readExact 8 s12 with
  | none => simp [hx13] at h
  | some p13 =>
  obtain ⟨v13, s13⟩ := p13
  simp only [hx13] at h
  obtain ⟨hl13, he13, hall13⟩ := readExact_spec hall12 hx13

  simp only [Option.some.injEq, Prod.mk.injEq] at h
  obtain ⟨hb, hr⟩ := h
  subst hr
  exact ⟨v1, v2, v3, v4, v5, v6, v7, v8, v9, v10, v11, v12, v13,
    hb1, hb2, hb3, hb4, hb5, hb6, hl7, he7, hb8, hb9, hb10, hb11,
    hl12, he12, hl13, he13, hb.symm, hall13⟩

/-- Shape of a successful short-tail read. -/
lemma readShortTail_shape {bpb0 : BiosParameterBlock} {s : List Nat}
    {bpb2 : BiosParameterBlock} {r : List Nat}
    (hall : ∀ x ∈ s, x < 2 ^ 8)
    (h : bpb0.readShortTail s = some (bpb2, r)) :
    ∃ dn r1 es vid vl ftl,
      dn < 2 ^ 8 ∧ r1 < 2 ^ 8 ∧ es < 2 ^ 8 ∧ vid < 2 ^ 32 ∧
      vl.length = 11 ∧ (∀ x ∈ vl, x < 2 ^ 8) ∧
      ftl.length = 8 ∧ (∀ x ∈ ftl, x < 2 ^ 8) ∧
      bpb2 = { bpb0 with
               drive_num := dn, reserved_1 := r1, ext_sig := es,
               volume_id := vid, volume_label := vl,
               fs_type_label := ftl } ∧
      (∀ x ∈ r, x < 2 ^ 8) := by
  unfold BiosParameterBlock.readShortTail at h
  cases hx1 : r8 s with
  | none => simp [hx1] at h
  | some p1 =>
  obtain ⟨v1, s1⟩ := p1
  simp only [hx1] at h
  obtain ⟨hb1, hall1⟩ := r8_spec hall hx1

  cases hx2 : r8 s1 with
  | none => simp [hx2] at h
  | some p2 =>
  obtain ⟨v2, s2⟩ := p2
  simp only [hx2] at h
  obtain ⟨hb2, hall2⟩ := r8_spec hall1 hx2

  cases hx3 : r8 s2 with
  | none => simp [hx3] at h
  | some p3 =>
  obtain ⟨v3, s3⟩ := p3
  simp only [hx3] at h
  obtain ⟨hb3, hall3⟩ := r8_spec hall2 hx3

  cases hx4 : r32 s3 with
  | none => simp [hx4] at h
  | some p4 =>
  obtain ⟨v4, s4⟩ := p4
  simp only [hx4] at h
  obtain ⟨hb4, hall4⟩ := r32_spec hall3 hx4

  cases hx5 : readExact 11 s4 with
  | none => simp [hx5] at h
  | some p5 =>
  obtain ⟨v5, s5⟩ := p5
  simp only [hx5] at h
  obtain ⟨hl5, he5, hall5⟩ := readExact_spec hall4 hx5

  cases hx6 : readExact 8 s5 with
  | none => simp [hx6] at h
  | some p6 =>
  obtain ⟨v6, s6⟩ := p6
  simp only [hx6] at h
  obtain ⟨hl6, he6, hall6⟩ := readExact_spec hall5 hx6

  simp only [Option.some.injEq, Prod.mk.injEq] at h
  obtain ⟨hb, hr⟩ := h
  subst hr
  exact ⟨v1, v2, v3, v4, v5, v6,
    hb1, hb2, hb3, hb4, hl5, he5, hl6, he6, hb.symm, hall6⟩

/-- Elements of a `0`-replicate are bytes. -/
lemma replicate_lt_256 (n : Nat) :
    ∀ x ∈ List.replicate n (0 : Nat), x < 2 ^ 8 := by
  intro x hx
  rw [List.eq_of_mem_replicate hx]
  norm_num

/-- Every record produced by a successful `BiosParameterBlock::deserialize`
of a byte stream is well formed: width bounds come from the readers, the
structural zeroing from the code paths themselves.  (This is what lets
`wfBpb` stand for "validly constructed" in the round-trip claim.) -/
lemma BiosParameterBlock.deserialize_wf {s : List Nat}
    {bpb : BiosParameterBlock} {r : List Nat}
    (hall : ∀ x ∈ s, x < 2 ^ 8)
    (h : BiosParameterBlock.deserialize s = some (bpb, r)) :
    wfBpb bpb ∧ ∀ x ∈ r, x < 2 ^ 8 := by
  unfold BiosParameterBlock.deserialize at h
  cases hx1 : r16 s with
  | none => simp [hx1] at h
  | some p1 =>
  obtain ⟨v1, s1⟩ := p1
  simp only [hx1] at h
  obtain ⟨hb1, hall1⟩ := r16_spec hall hx1

  cases hx2 : r8 s1 with
  | none => simp [hx2] at h
  | some p2 =>
  obtain ⟨v2, s2⟩ := p2
  simp only [hx2] at h
  obtain ⟨hb2, hall2⟩ := r8_spec hall1 hx2

  cases hx3 : r16 s2 with
  | none => simp [hx3] at h
  | some p3 =>
  obtain ⟨v3, s3⟩ := p3
  simp only [hx3] at h
  obtain ⟨hb3, hall3⟩ := r16_spec hall2 hx3

  cases hx4 : r8 s3 with
  | none => simp [hx4] at h
  | some p4 =>
  obtain ⟨v4, s4⟩ := p4
  simp only [hx4] at h
  obtain ⟨hb4, hall4⟩ := r8_spec hall3 hx4

  cases hx5 : r16 s4 with
  | none => simp [hx5] at h
  | some p5 =>
  obtain ⟨v5, s5⟩ := p5
  simp only [hx5] at h
  obtain ⟨hb5, hall5⟩ := r16_spec hall4 hx5

  cases hx6 : r16 s5 with
  | none => simp [hx6] at h
  | some p6 =>
  obtain ⟨v6, s6⟩ := p6
  simp only [hx6] at h
  obtain ⟨hb6, hall6⟩ := r16_spec hall5 hx6

  cases hx7 : r8 s6 with
  | none => simp [hx7] at h
  | some p7 =>
  obtain ⟨v7, s7⟩ := p7
  simp only [hx7] at h
  obtain ⟨hb7, hall7⟩ := r8_spec hall6 hx7

  cases hx8 : r16 s7 with
  | none => simp [hx8] at h
  | some p8 =>
  obtain ⟨v8, s8⟩ := p8
  simp only [hx8] at h
  obtain ⟨hb8, hall8⟩ := r16_spec hall7 hx8

  cases hx9 : r16 s8 with
  | none => simp [hx9] at h
  | some p9 =>
  obtain ⟨v9, s9⟩ := p9
  simp only [hx9] at h
  obtain ⟨hb9, hall9⟩ := r16_spec hall8 hx9

  cases hx10 : r16 s9 with
  | none => simp [hx10] at h
  | some p10 =>
  obtain ⟨v10, s10⟩ := p10
  simp only [hx10] at h
  obtain ⟨hb10, hall10⟩ := r16_spec hall9 hx10

  cases hx11 : r32 s10 with
  | none => simp [hx11] at h
  | some p11 =>
  obtain ⟨v11, s11⟩ := p11
  simp only [hx11] at h
  obtain ⟨hb11, hall11⟩ := r32_spec hall10 hx11

  cases hx12 : r32 s11 with
  | none => simp [hx12] at h
  | some p12 =>
  obtain ⟨v12, s12⟩ := p12
  simp only [hx12] at h
  obtain ⟨hb12, hall12⟩ := r32_spec hall11 hx12

  by_cases hf : v8 = 0
  · subst hf
    simp only [BiosParameterBlock.is_fat32, beq_self_eq_true, if_true,
      ite_true] at h
    cases hx13 : BiosParameterBlock.readExtTail
        { bytes_per_sector := v1, sectors_per_cluster := v2,
          reserved_sectors := v3, fats := v4, root_entries := v5,
          total_sectors_16 := v6, media := v7, sectors_per_fat_16 := 0,
          sectors_per_track := v9, heads := v10, hidden_sectors := v11,
          total_sectors_32 := v12 } s12 with
    | none =>
      simp only [hx13] at h
      exact Option.noConfusion h
    | some p13 =>
    obtain ⟨bpbx, s13⟩ := p13
    simp only [hx13] at h
    obtain ⟨spf32, ef, fsv, rdfc, fis, bbs, res0, dn, r1, es, vid, vl, ftl,
      c1, c2, c3, c4, c5, c6, c7, c8, c9, c10, c11, c12, c13, c14, c15, c16,
      heq, hrest⟩ := readExtTail_shape hall12 hx13
    subst heq
    by_cases hes : es = 0x29
    · simp only [ne_eq, hes, not_true_eq_false, if_false, ite_false] at h
      simp only [Option.some.injEq, Prod.mk.injEq] at h
      obtain ⟨hbeq, hreq⟩ := h
      subst hbeq
      subst hreq
      refine ⟨?_, hrest⟩
      exact ⟨hb1,
        hb2,
        hb3,
        hb4,
        hb5,
        hb6,
        hb7,
        hb8,
        hb9,
        hb10,
        hb11,
        hb12,
        c1,
        c2,
        c3,
        c4,
        c5,
        c6,
        c7,
        c8,
        c9,
        c10,
        (by norm_num : (41 : Nat) < 2 ^ 8),
        c12,
        c13,
        c14,
        c15,
        c16,
        (fun hc => absurd rfl hc),
        (fun hc => absurd rfl hc)⟩
    · have hne : (es = 0x29) = False := by simp [hes]
      simp only [ne_eq, hne, not_false_eq_true, if_true, ite_true] at h
      simp only [Option.some.injEq, Prod.mk.injEq] at h
      obtain ⟨hbeq, hreq⟩ := h
      subst hbeq
      subst hreq
      refine ⟨?_, hrest⟩
      exact ⟨hb1,
        hb2,
        hb3,
        hb4,
        hb5,
        hb6,
        hb7,
        hb8,
        hb9,
        hb10,
        hb11,
        hb12,
        c1,
        c2,
        c3,
        c4,
        c5,
        c6,
        c7,
        c8,
        c9,
        c10,
        c11,
        (by norm_num),
        (by simp),
        replicate_lt_256 11,
        (by simp),
        replicate_lt_256 8,
        (fun hc => absurd rfl hc),
        (fun _ => ⟨rfl, rfl, rfl⟩)⟩
  · have hbeqf : (v8 == 0) = false := by simp [hf]
    simp only [BiosParameterBlock.is_fat32, hbeqf, if_false, ite_false,
      Bool.false_eq_true] at h
    cases hx13 : BiosParameterBlock.readShortTail
        { bytes_per_sector := v1, sectors_per_cluster := v2,
          reserved_sectors := v3, fats := v4, root_entries := v5,
          total_sectors_16 := v6, media := v7, sectors_per_fat_16 := v8,
          sectors_per_track := v9, heads := v10, hidden_sectors := v11,
          total_sectors_32 := v12 } s12 with
    | none =>
      simp only [hx13] at h
      exact Option.noConfusion h
    | some p13 =>
    obtain ⟨bpbx, s13⟩ := p13
    simp only [hx13] at h
    obtain ⟨dn, r1, es, vid, vl, ftl, c1, c2, c3, c4, c5, c6, c7, c8,
      heq, hrest⟩ := readShortTail_shape hall12 hx13
    subst heq
    by_cases hes : es = 0x29
    · simp only [ne_eq, hes, not_true_eq_false, if_false, ite_false] at h
      simp only [Option.some.injEq, Prod.mk.injEq] at h
      obtain ⟨hbeq, hreq⟩ := h
      subst hbeq
      subst hreq
      refine ⟨?_, hrest⟩
      exact ⟨hb1,
        hb2,
        hb3,
        hb4,
        hb5,
        hb6,
        hb7,
        hb8,
        hb9,
        hb10,
        hb11,
        hb12,
        (by norm_num),
        (by norm_num),
        (by norm_num),
        (by norm_num),
        (by norm_num),
        (by norm_num),
        (by simp),
        replicate_lt_256 12,
        c1,
        c2,
        (by norm_num : (41 : Nat) < 2 ^ 8),
        c4,
        c5,
        c6,
        c7,
        c8,
        (fun _ => ⟨rfl, rfl, rfl, rfl, rfl, rfl, rfl⟩),
        (fun hc => absurd rfl hc)⟩
    · have hne : (es = 0x29) = False := by simp [hes]
      simp only [ne_eq, hne, not_false_eq_true, if_true, ite_true] at h
      simp only [Option.some.injEq, Prod.mk.injEq] at h
      obtain ⟨hbeq, hreq⟩ := h
      subst hbeq
      subst hreq
      refine ⟨?_, hrest⟩
      exact ⟨hb1,
        hb2,
        hb3,
        hb4,
        hb5,
        hb6,
        hb7,
        hb8,
        hb9,
        hb10,
        hb11,
        hb12,
        (by norm_num),
        (by norm_num),
        (by norm_num),
        (by norm_num),
        (by norm_num),
        (by norm_num),
        (by simp),
        replicate_lt_256 12,
        c1,
        c2,
        c3,
        (by norm_num),
        (by simp),
        replicate_lt_256 11,
        (by simp),
        replicate_lt_256 8,
        (fun _ => ⟨rfl, rfl, rfl, rfl, rfl, rfl, rfl⟩),
        (fun _ => ⟨rfl, rfl, rfl⟩)⟩

/-- Every boot sector produced by a successful `BootSector::deserialize`
of a byte stream is well formed. -/
lemma BootSector.deserialize_wf_boot {s : List Nat} {boot : BootSector}
    {r : List Nat} (hall : ∀ x ∈ s, x < 2 ^ 8)
    (h : BootSector.deserialize s = some (boot, r)) : wfBoot boot := by
  unfold BootSector.deserialize at h
  cases hx1 : readExact 3 s with
  | none => simp [hx1] at h
  | some p1 =>
  obtain ⟨bj, s1⟩ := p1
  simp only [hx1] at h
  obtain ⟨hl1, he1, hall1⟩ := readExact_spec hall hx1
  cases hx2 : readExact 8 s1 with
  | none => simp [hx2] at h
  | some p2 =>
  obtain ⟨oem, s2⟩ := p2
  simp only [hx2] at h
  obtain ⟨hl2, he2, hall2⟩ := readExact_spec hall1 hx2
  cases hx3 : BiosParameterBlock.deserialize s2 with
  | none =>
    simp only [hx3] at h
    exact Option.noConfusion h
  | some p3 =>
  obtain ⟨bpb, s3⟩ := p3
  simp only [hx3] at h
  obtain ⟨hwf, hall3⟩ := BiosParameterBlock.deserialize_wf hall2 hx3
  by_cases hf : bpb.is_fat32
  · simp only [hf, if_true, ite_true] at h
    cases hx4 : readExact 420 s3 with
    | none => simp [hx4] at h
    | some p4 =>
    obtain ⟨code, s4⟩ := p4
    simp only [hx4] at h
    obtain ⟨hl4, he4, hall4⟩ := readExact_spec hall3 hx4
    cases hx5 : readExact 2 s4 with
    | none => simp [hx5] at h
    | some p5 =>
    obtain ⟨sig, s5⟩ := p5
    simp only [hx5] at h
    obtain ⟨hl5, he5, hall5⟩ := readExact_spec hall4 hx5
    simp only [Option.some.injEq, Prod.mk.injEq] at h
    obtain ⟨hbeq, -⟩ := h
    subst hbeq
    refine ⟨hl1, he1, hl2, he2, hwf, ?_, ?_, hl5, he5, ?_⟩
    · simp [hl4]
    · intro x hx
      rcases List.mem_append.mp hx with hx | hx
      · exact he4 x hx
      · rw [List.eq_of_mem_replicate hx]
        norm_num
    · intro _
      rw [List.drop_append_of_le_length (by omega)]
      simp [hl4]
  · have hf2 : bpb.is_fat32 = false := by
      revert hf
      cases bpb.is_fat32 <;> simp
    simp only [hf2, if_false, ite_false, Bool.false_eq_true] at h
    cases hx4 : readExact 448 s3 with
    | none => simp [hx4] at h
    | some p4 =>
    obtain ⟨code, s4⟩ := p4
    simp only [hx4] at h
    obtain ⟨hl4, he4, hall4⟩ := readExact_spec hall3 hx4
    cases hx5 : readExact 2 s4 with
    | none => simp [hx5] at h
    | some p5 =>
    obtain ⟨sig, s5⟩ := p5
    simp only [hx5] at h
    obtain ⟨hl5, he5, hall5⟩ := readExact_spec hall4 hx5
    simp only [Option.some.injEq, Prod.mk.injEq] at h
    obtain ⟨hbeq, -⟩ := h
    subst hbeq
    refine ⟨hl1, he1, hl2, he2, hwf, hl4, he4, hl5, he5, ?_⟩
    · intro hc
      rw [hf2] at hc
      exact Bool.noConfusion hc

/-- Machine-width bounds on the caller-supplied `FormatVolumeOptions`
fields (the Rust field types: u16/u32/u8 scalars, an 11-byte label). -/
def wfOpts (o : FormatVolumeOptions) : Prop :=
  0 < o.bytes_per_sector ∧ o.bytes_per_sector < 2 ^ 16 ∧
  o.total_sectors < 2 ^ 32 ∧
  o.root_entries.all (fun re => decide (re < 2 ^ 16)) = true ∧
  o.media.all (fun m => decide (m < 2 ^ 8)) = true ∧
  o.sectors_per_track.all (fun t => decide (t < 2 ^ 16)) = true ∧
  o.heads.all (fun t => decide (t < 2 ^ 16)) = true ∧
  o.drive_num.all (fun d => decide (d < 2 ^ 8)) = true ∧
  o.volume_id.all (fun v => decide (v < 2 ^ 32)) = true ∧
  o.volume_label.all
    (fun l => decide (l.length = 11) && l.all (fun x => decide (x < 2 ^ 8))) = true

/-- An `Option.all` bound transfers to `getD` when the default also
satisfies it. -/
lemma optAll_getD {o : Option Nat} {p : Nat → Prop} [DecidablePred p]
    {d : Nat} (h : o.all (fun x => decide (p x)) = true) (hd : p d) :
    p (o.getD d) := by
  cases o with
  | none => exact hd
  | some v => simpa using h

/-- `determine_sectors_per_fat` always fits in u32 (its numerator is
reduced mod `2 ^ 32` before the final division). -/
lemma determine_sectors_per_fat_lt (a b c d e : Nat) (f : FatType) :
    determine_sectors_per_fat a b c d e f < 2 ^ 32 := by
  unfold determine_sectors_per_fat
  exact lt_of_le_of_lt (Nat.div_le_self _ _) (Nat.mod_lt _ (by norm_num))

/-- Every BPB returned by `format_bpb` on machine-width options is well
formed. -/
lemma format_bpb_wf {o : FormatVolumeOptions} {bpb : BiosParameterBlock}
    {ft : FatType} (hw : wfOpts o)
    (h : format_bpb o = Except.ok (bpb, ft)) : wfBpb bpb := by
  obtain ⟨h1, h2, h3, h4, h5, h6, h7, h8, h9, h10⟩ := hw
  unfold format_bpb at h
  split at h
  · exact Except.noConfusion h
  split at h
  · exact Except.noConfusion h
  simp only [Except.ok.injEq, Prod.mk.injEq] at h
  obtain ⟨hbeq, -⟩ := h
  subst hbeq
  have hvl : (o.volume_label.getD noNameLabel).length = 11 ∧
      ∀ x ∈ o.volume_label.getD noNameLabel, x < 2 ^ 8 := by
    cases hcase : o.volume_label with
    | none => exact ⟨by decide, by decide⟩
    | some l =>
      rw [hcase] at h10
      simp only [Option.all, Bool.and_eq_true, decide_eq_true_eq,
        List.all_eq_true] at h10
      exact ⟨h10.1, h10.2⟩
  have hftl : (fsTypeLabel (formatFatType o)).length = 8 ∧
      ∀ x ∈ fsTypeLabel (formatFatType o), x < 2 ^ 8 := by
    cases formatFatType o <;> exact ⟨by decide, by decide⟩
  unfold formatBpbRecord
  refine ⟨h2, ?_, ?_, by norm_num, ?_, ?_, ?_, ?_, ?_, ?_, by norm_num, ?_,
    ?_, by norm_num, by norm_num, ?_, ?_, ?_, by simp, replicate_lt_256 12,
    ?_, by norm_num, by norm_num, ?_, hvl.1, hvl.2, hftl.1, hftl.2, ?_, ?_⟩
  all_goals dsimp only
  · exact Nat.mod_lt _ (by norm_num)
  · unfold formatReservedSectors
    split <;> norm_num
  · unfold formatRootEntries
    split
    · norm_num
    · exact optAll_getD h4 (by norm_num)
  · split <;> omega
  · exact optAll_getD h5 (by norm_num)
  · split
    · norm_num
    · exact Nat.mod_lt _ (by norm_num)
  · exact optAll_getD h6 (by norm_num)
  · exact optAll_getD h7 (by norm_num)
  · split <;> omega
  · split
    · exact determine_sectors_per_fat_lt _ _ _ _ _ _
    · norm_num
  · split <;> norm_num
  · split <;> norm_num
  · split <;> norm_num
  · refine optAll_getD h8 ?_
    split <;> norm_num
  · exact optAll_getD h9 (by norm_num)
  · intro hc
    by_cases hft : formatFatType o = FatType.Fat32
    · exact absurd (by rw [if_pos hft]) hc
    · exact ⟨by rw [if_neg hft], rfl, rfl, by rw [if_neg hft],
        by rw [if_neg hft], by rw [if_neg hft], rfl⟩
  · intro hc
    exact absurd rfl hc

/-- Every boot sector returned by `format_boot_sector` on machine-width
options is well formed. -/
lemma format_boot_sector_wf {o : FormatVolumeOptions} {boot : BootSector}
    {ft : FatType} (hw : wfOpts o)
    (h : format_boot_sector o = Except.ok (boot, ft)) : wfBoot boot := by
  unfold format_boot_sector at h
  cases hfb : format_bpb o with
  | error e =>
    rw [hfb] at h
    exact Except.noConfusion h
  | ok p =>
  obtain ⟨bpb, ft2⟩ := p
  rw [hfb] at h
  have hwf := format_bpb_wf hw hfb
  simp only [Except.map] at h
  split at h
  · simp only [Except.ok.injEq, Prod.mk.injEq] at h
    obtain ⟨hbeq, -⟩ := h
    subst hbeq
    exact ⟨by dsimp only; decide, by dsimp only; decide, by dsimp only; decide,
      by dsimp only; decide, hwf, by dsimp only; decide, by dsimp only; decide,
      by dsimp only; decide, by dsimp only; decide,
      fun _ => by dsimp only; decide⟩
  · simp only [Except.ok.injEq, Prod.mk.injEq] at h
    obtain ⟨hbeq, -⟩ := h
    subst hbeq
    exact ⟨by dsimp only; decide, by dsimp only; decide, by dsimp only; decide,
      by dsimp only; decide, hwf, by dsimp only; decide, by dsimp only; decide,
      by dsimp only; decide, by dsimp only; decide,
      fun _ => by dsimp only; decide⟩
